import Mathlib

/-!
Shallow embedding of the gralloc buffer-layout engine
(`src/core/buffer_allocation.cpp` and
`interfaces/libs/drmutils/src/drm_utils.cpp`), together with theorems
settling the frozen claims about it.

Machine integers are modelled as `Nat`: every quantity in the layout
computation is non-negative, and the claims under study concern the
arithmetic of the algorithm, not 32/64-bit wrap-around.
-/

/-- Modelled from the spec: the `GRALLOC_ALIGN` helper macro (declared in a
header that is not part of the supplied sources) rounds `value` up to the
next multiple of `base`; every alignment the claims exercise is a positive
power of two, for which the macro's bit-twiddling form agrees with the
round-up-to-multiple form used here.  `base = 0` is never reached by the
embedded code paths; it is mapped to the identity. -/
def GRALLOC_ALIGN (value base : Nat) : Nat :=
  if base = 0 then value else (value + base - 1) / base * base

/-- From the source: `rect_t`, a width/height pair in pixels. -/
structure rect_t where
  width : Nat
  height : Nat
deriving DecidableEq, Repr

/-- From the source: `AllocBaseType`, the primary allocation variant. -/
inductive AllocBaseType where
  | UNCOMPRESSED
  | AFBC
  | AFBC_WIDEBLK
  | AFBC_EXTRAWIDEBLK
  | AFRC
  | BLOCK_LINEAR
deriving DecidableEq, Repr

/-- Modelled from the spec: the AFRC parameter block of `alloc_type_t`
(declared in `buffer_allocation.h`, which is not among the supplied
sources): paging-tile dimensions, per-plane-group coding-unit byte sizes
and plane alignments, and the per-plane clump dimensions. -/
structure afrc_params where
  paging_tile_width : Nat
  paging_tile_height : Nat
  rgba_luma_coding_unit_bytes : Nat
  rgba_luma_plane_alignment : Nat
  chroma_coding_unit_bytes : Nat
  chroma_plane_alignment : Nat
  clumps : List (Nat × Nat)
deriving DecidableEq, Repr

instance : Inhabited afrc_params :=
  ⟨{ paging_tile_width := 0, paging_tile_height := 0,
     rgba_luma_coding_unit_bytes := 0, rgba_luma_plane_alignment := 0,
     chroma_coding_unit_bytes := 0, chroma_plane_alignment := 0,
     clumps := [] }⟩

/-- Modelled from the spec: `alloc_type_t` (declared in
`buffer_allocation.h`, not among the supplied sources): the validated
encoding decision produced by the Encoding Selector. -/
structure alloc_type_t where
  primary_type : AllocBaseType
  is_multi_plane : Bool
  is_tiled : Bool
  is_padded : Bool
  is_frontbuffer_safe : Bool
  afrc : afrc_params
deriving DecidableEq, Repr

/-- Modelled from the spec: `alloc_type_t::is_afbc`, true exactly when the
primary type is one of the three block-compressed superblock classes. -/
def alloc_type_t.is_afbc (t : alloc_type_t) : Bool :=
  match t.primary_type with
  | .AFBC | .AFBC_WIDEBLK | .AFBC_EXTRAWIDEBLK => true
  | _ => false

/-- Modelled from the spec: `alloc_type_t::is_afrc`. -/
def alloc_type_t.is_afrc (t : alloc_type_t) : Bool :=
  t.primary_type = .AFRC

/-- Modelled from the spec: `alloc_type_t::is_block_linear`. -/
def alloc_type_t.is_block_linear (t : alloc_type_t) : Bool :=
  t.primary_type = .BLOCK_LINEAR

/-- Per-plane clump width stored in the AFRC parameters. -/
def alloc_type_t.clump_w (t : alloc_type_t) (plane : Nat) : Nat :=
  (t.afrc.clumps.getD plane (0, 0)).1

/-- Per-plane clump height stored in the AFRC parameters. -/
def alloc_type_t.clump_h (t : alloc_type_t) (plane : Nat) : Nat :=
  (t.afrc.clumps.getD plane (0, 0)).2

/-- Modelled from the spec: `format_info_t`, one row of the immutable
Format Catalog (`format_info.h` is not among the supplied sources; the
fields are exactly those the embedded source functions read).  Per-plane
arrays are lists indexed by plane. -/
structure format_info_t where
  id : Nat
  npln : Nat
  bpp : List Nat
  bpp_afbc : List Nat
  hsub : Nat
  vsub : Nat
  align_w : Nat
  align_h : Nat
  align_w_cpu : Nat
  tile_size : Nat
  is_yuv : Bool
  ncmp : List Nat
  afbc : Bool
  afrc : Bool
  block_linear : Bool
  linear : Bool
deriving DecidableEq, Repr

/-- Modelled from the spec: the encoding-parameter bitmask
(`MALI_GRALLOC_INTFMT_*` bits of the extended internal format, whose
defining header is not among the supplied sources) decoded into named
flags; the two 2-bit coding-unit fields are carried as `Fin 4`. -/
structure FormatExt where
  afbc : Bool
  afbc_wideblk : Bool
  afbc_extrawideblk : Bool
  afbc_tiled_headers : Bool
  afbc_double_body : Bool
  afbc_yuv_transform : Bool
  afbc_splitblk : Bool
  afbc_bch : Bool
  afbc_sparse : Bool
  afbc_usm : Bool
  afrc : Bool
  afrc_rot_layout : Bool
  afrc_rgba_cu_field : Fin 4
  afrc_chroma_cu_field : Fin 4
  block_linear : Bool
deriving DecidableEq, Repr

/-- Modelled from the spec: `is_format_afbc`, true when the extended
format requests block-compression. -/
def is_format_afbc (ext : FormatExt) : Bool := ext.afbc

/-- Modelled from the spec: `is_format_afrc`, true when the extended
format requests fixed-rate-compression. -/
def is_format_afrc (ext : FormatExt) : Bool := ext.afrc

/-- Modelled from the spec: `is_format_block_linear`. -/
def is_format_block_linear (ext : FormatExt) : Bool := ext.block_linear

/-- Modelled from the spec: the usage bits the embedded code reads,
decoded into named flags: the AFBC padding request, CPU (software)
usage, and hardware usage. -/
structure Usage where
  afbc_padding : Bool
  cpu : Bool
  hw : Bool
deriving DecidableEq, Repr

/-- Modelled from the spec:
`MALI_GRALLOC_INTFMT_AFRC_CODING_UNIT_BYTES_UNWRAP` decodes a 2-bit
coding-unit field into a byte size; the three enumerated classes decode
to 16, 24 and 32 bytes, the remaining field value decodes outside that
set and is rejected downstream. -/
def afrc_cu_bytes_unwrap (v : Fin 4) : Nat := 16 + 8 * v.val

/-- Modelled from the spec: distinct internal format identifiers used by
the embedded code (`MALI_GRALLOC_FORMAT_INTERNAL_BLOB`); the defining
header is not among the supplied sources, only identity matters. -/
def MALI_GRALLOC_FORMAT_INTERNAL_BLOB : Nat := 128

/-- Modelled from the spec: internal identifier of the YV12 format. -/
def MALI_GRALLOC_FORMAT_INTERNAL_YV12 : Nat := 110

/-- From the source: errors the selector can report.  The C code returns
`false` after logging a distinguishing message; the constructors name the
distinct log sites (spec error kinds `InvalidEncodingCombination`,
`InvalidCodingUnitSize`, and the internal component-count error). -/
inductive GrallocError where
  | invalidEncodingCombination
  | invalidCodingUnitSize
  | invalidComponentCount
deriving DecidableEq, Repr

instance {ε α : Type} [DecidableEq ε] [DecidableEq α] :
    DecidableEq (Except ε α) := fun x y =>
  match x, y with
  | .error a, .error b =>
    if h : a = b then isTrue (by rw [h])
    else isFalse (fun hxy => by cases hxy; exact h rfl)
  | .ok a, .ok b =>
    if h : a = b then isTrue (by rw [h])
    else isFalse (fun hxy => by cases hxy; exact h rfl)
  | .error _, .ok _ => isFalse (fun hxy => by cases hxy)
  | .ok _, .error _ => isFalse (fun hxy => by cases hxy)

/-- From the source: `afbc_buffer_align` rounds a size up to the AFBC
body-buffer alignment of 1024 bytes, or four times that with tiled
headers. -/
def afbc_buffer_align (is_tiled : Bool) (size : Nat) : Nat :=
  GRALLOC_ALIGN size (if is_tiled then 4 * 1024 else 1024)

/-- From the source: `afrc_plane_alignment_requirement` maps a coding-unit
byte size to the AFRC plane alignment, returning 0 for any size outside
the supported set. -/
def afrc_plane_alignment_requirement (coding_unit_size : Nat) : Nat :=
  match coding_unit_size with
  | 16 => 1024
  | 24 => 512
  | 32 => 2048
  | _ => 0

/-- From the source: `get_afbc_sb_size(AllocBaseType)` gives the
superblock dimensions of each AFBC class. -/
def get_afbc_sb_size_base (t : AllocBaseType) : rect_t :=
  match t with
  | .AFBC => { width := 16, height := 16 }
  | .AFBC_WIDEBLK => { width := 32, height := 8 }
  | .AFBC_EXTRAWIDEBLK => { width := 64, height := 4 }
  | _ => { width := 0, height := 0 }

/-- From the source: `get_afbc_sb_size(alloc_type_t, plane)`: planes after
plane 0 of a multi-plane AFBC allocation always use the extra-wide
superblock dimensions. -/
def get_afbc_sb_size (t : alloc_type_t) (plane : Nat) : rect_t :=
  if 0 < plane ∧ t.is_afbc = true ∧ t.is_multi_plane = true then
    get_afbc_sb_size_base .AFBC_EXTRAWIDEBLK
  else
    get_afbc_sb_size_base t.primary_type

/-- From the source: the per-plane clump dimensions chosen from the
component count in `get_alloc_type`'s AFRC loop. -/
def afrc_clump (ptw pth ncmp_p : Nat) : Except GrallocError (Nat × Nat) :=
  match ncmp_p with
  | 1 => .ok (ptw, pth)
  | 2 => .ok (8, 4)
  | 3 => .ok (4, 4)
  | 4 => .ok (4, 4)
  | _ => .error .invalidComponentCount

/-- From the source: the AFRC per-plane loop of `get_alloc_type`, over the
given list of plane indices. -/
def afrc_clumps (ptw pth : Nat) (ncmp : List Nat) :
    List Nat → Except GrallocError (List (Nat × Nat))
  | [] => .ok []
  | p :: ps =>
    match afrc_clump ptw pth (ncmp.getD p 0) with
    | .error e => .error e
    | .ok c =>
      match afrc_clumps ptw pth ncmp ps with
      | .error e => .error e
      | .ok cs => .ok (c :: cs)

/-- From the source: `get_alloc_type` decodes the extended-format bits,
format attributes and usage into an `alloc_type_t`, or fails.  The two
log-only diagnostics (YUV transform on a YUV format; front-buffer safety
with wide/extra-wide blocks) have no effect on the result and are
omitted. -/
def get_alloc_type (ext : FormatExt) (fmt : format_info_t) (usage : Usage) :
    Except GrallocError alloc_type_t :=
  let base : alloc_type_t :=
    { primary_type := .UNCOMPRESSED
      is_multi_plane := decide (1 < fmt.npln)
      is_tiled := false
      is_padded := false
      is_frontbuffer_safe := false
      afrc := default }
  if ext.afbc then
    let primary : AllocBaseType :=
      if ext.afbc_wideblk then .AFBC_WIDEBLK
      else if ext.afbc_extrawideblk then .AFBC_EXTRAWIDEBLK
      else .AFBC
    let is_tiled := ext.afbc_tiled_headers
    let is_multi_plane :=
      if ext.afbc_tiled_headers then
        if 1 < fmt.npln ∧ ext.afbc_extrawideblk = false then false
        else base.is_multi_plane
      else false
    let is_frontbuffer_safe :=
      if ext.afbc_tiled_headers then ext.afbc_double_body else false
    if ext.afbc_extrawideblk = true ∧ is_tiled = false then
      .error .invalidEncodingCombination
    else if fmt.npln = 1 ∧ ext.afbc_wideblk = true ∧ ext.afbc_extrawideblk = true then
      .error .invalidEncodingCombination
    else
      .ok { primary_type := primary
            is_multi_plane := is_multi_plane
            is_tiled := is_tiled
            is_padded := usage.afbc_padding
            is_frontbuffer_safe := is_frontbuffer_safe
            afrc := default }
  else if ext.afrc then
    let ptw := if ext.afrc_rot_layout then 8 else 16
    let pth := if ext.afrc_rot_layout then 8 else 4
    let rgba_cu := afrc_cu_bytes_unwrap ext.afrc_rgba_cu_field
    let rgba_align := afrc_plane_alignment_requirement rgba_cu
    if rgba_align = 0 then
      .error .invalidCodingUnitSize
    else
      let chroma_cu := afrc_cu_bytes_unwrap ext.afrc_chroma_cu_field
      let chroma_align := afrc_plane_alignment_requirement chroma_cu
      if chroma_align = 0 then
        .error .invalidCodingUnitSize
      else
        match afrc_clumps ptw pth fmt.ncmp (List.range fmt.npln) with
        | .error e => .error e
        | .ok cs =>
          .ok { base with
                primary_type := .AFRC
                afrc :=
                  { paging_tile_width := ptw
                    paging_tile_height := pth
                    rgba_luma_coding_unit_bytes := rgba_cu
                    rgba_luma_plane_alignment := rgba_align
                    chroma_coding_unit_bytes := chroma_cu
                    chroma_plane_alignment := chroma_align
                    clumps := cs } }
  else if ext.block_linear then
    .ok { base with primary_type := .BLOCK_LINEAR }
  else
    .ok base

/-- From the source: the 3-argument `max` helper. -/
def max3 (a b c : Nat) : Nat := max (max a b) c

/-- From the source (`get_pixel_w_h`): the AFBC tile width used for the
width alignment of a plane, the superblock width scaled by the
headers-per-tile factor (4 for formats deeper than 32 bits per pixel,
8 otherwise) when tiled headers are active. -/
def afbc_tile_width (f : format_info_t) (t : alloc_type_t) (plane : Nat) : Nat :=
  let sb := get_afbc_sb_size t plane
  if t.is_tiled then
    if 32 < f.bpp_afbc.getD plane 0 then 4 * sb.width else 8 * sb.width
  else sb.width

/-- From the source (`get_pixel_w_h`): the AFBC tile height used for the
height alignment of a plane. -/
def afbc_tile_height (f : format_info_t) (t : alloc_type_t) (plane : Nat) : Nat :=
  let sb := get_afbc_sb_size t plane
  if t.is_tiled then
    if 32 < f.bpp_afbc.getD plane 0 then 4 * sb.height else 8 * sb.height
  else sb.height

/-- From the source: `get_pixel_w_h` computes the allocation width and
height of a plane: round up to the format's channel alignment,
sub-sample planes after the first, then apply the encoding-dependent
pixel alignment, never below the format's tile size. -/
def get_pixel_w_h (width height : Nat) (f : format_info_t) (t : alloc_type_t)
    (plane : Nat) (has_cpu_usage : Bool) : Nat × Nat :=
  let sb := get_afbc_sb_size t plane
  let w1 := GRALLOC_ALIGN width f.align_w
  let h1 := GRALLOC_ALIGN height f.align_h
  let w2 := if 0 < plane then w1 / f.hsub else w1
  let h2 := if 0 < plane then h1 / f.vsub else h1
  let pa : Nat × Nat :=
    if has_cpu_usage then
      (f.align_w_cpu, 1)
    else if t.is_afbc then
      let num_sb_align : Nat := if t.is_padded = true ∧ f.is_yuv = false then 4 else 0
      let paw0 := max 0 num_sb_align * sb.width
      let paw1 := max paw0 (afbc_tile_width f t plane)
      let pah1 := max 1 (afbc_tile_height f t plane)
      let pah2 :=
        if t.primary_type = .AFBC_WIDEBLK ∧ t.is_tiled = false then max pah1 16
        else pah1
      (paw1, pah2)
    else if t.is_afrc then
      (t.afrc.paging_tile_width * t.clump_w plane,
       t.afrc.paging_tile_height * t.clump_h plane)
    else if t.is_block_linear then
      (16, 16)
    else
      (1, 1)
  (GRALLOC_ALIGN w2 (max3 1 pa.1 f.tile_size),
   GRALLOC_ALIGN h2 (max3 1 pa.2 f.tile_size))

/-- From the source: `lcm` on `uint32_t`; for two non-zero arguments the
least common multiple (the source's `gcd` loop is the Euclidean
algorithm, i.e. `Nat.gcd`), otherwise the maximum. -/
def lcm' (a b : Nat) : Nat :=
  if a ≠ 0 ∧ b ≠ 0 then a * b / Nat.gcd a b else max a b

/-- From the source: `plane_info_t`, the per-plane layout record. -/
structure plane_info_t where
  offset : Nat
  byte_stride : Nat
  alloc_width : Nat
  alloc_height : Nat
deriving DecidableEq, Repr

/-- One plane's full result inside `calc_allocation_size`: the exposed
`plane_info_t` plus the body and header byte counts the running total
accumulated for it. -/
structure PlaneCalc where
  info : plane_info_t
  body_size : Nat
  header_size : Nat
deriving DecidableEq, Repr

/-- A plane's contribution to the running total size: body plus header. -/
def plane_contribution (pc : PlaneCalc) : Nat := pc.body_size + pc.header_size

/-- From the source (`calc_allocation_size`): the per-plane byte stride.
`p0_aw` and `p0_stride` are plane 0's allocation width and final byte
stride, which the block-linear and YV12 paths read. -/
def calc_byte_stride (t : alloc_type_t) (f : format_info_t) (cpu hw : Bool)
    (plane aw p0_aw p0_stride : Nat) : Nat :=
  if t.is_afrc then
    let cu := if plane = 0 then t.afrc.rgba_luma_coding_unit_bytes
              else t.afrc.chroma_coding_unit_bytes
    aw / t.clump_w plane / t.afrc.paging_tile_width * 64 * cu
  else if t.is_afbc then
    aw * f.bpp_afbc.getD plane 0 / 8
  else if t.is_block_linear then
    let sample_h := if 0 < plane then 16 / f.vsub else 16
    let sample_w := if 0 < plane then 16 / f.hsub else 16
    p0_aw / 16 * (sample_h * sample_w * f.bpp.getD plane 0 / 8)
  else
    let s0 := aw * f.bpp.getD plane 0 / 8
    let hw_align : Nat := if hw then (if f.is_yuv then 128 else 64) else 0
    let cpu_align : Nat := if cpu then f.bpp.getD plane 0 * f.align_w_cpu / 8 else 0
    let stride_align := lcm' hw_align cpu_align
    let s1 := if stride_align ≠ 0 then
                GRALLOC_ALIGN (s0 * f.tile_size) stride_align / f.tile_size
              else s0
    if f.id = MALI_GRALLOC_FORMAT_INTERNAL_YV12 ∧ hw = true ∧ cpu = true then
      if plane = 0 then GRALLOC_ALIGN s1 (2 * stride_align) else p0_stride / 2
    else s1

/-- From the source (`calc_allocation_size`): the per-plane body size.
`p0_ah` is plane 0's allocation height, read by the block-linear path. -/
def calc_body_size (t : alloc_type_t) (f : format_info_t)
    (plane aw ah stride p0_ah : Nat) : Nat :=
  if t.is_afbc then
    let sb := get_afbc_sb_size t plane
    let sb_num := aw * ah / 256
    let sb_bytes := GRALLOC_ALIGN (f.bpp_afbc.getD plane 0 * sb.width * sb.height / 8) 128
    let body0 := sb_num * sb_bytes
    let body1 := if 1 < f.npln ∧ plane < 2 then afbc_buffer_align t.is_tiled body0
                 else body0
    if t.is_frontbuffer_safe then body1 + afbc_buffer_align t.is_tiled body1
    else body1
  else if t.is_afrc then
    let cu := if plane = 0 then t.afrc.rgba_luma_coding_unit_bytes
              else t.afrc.chroma_coding_unit_bytes
    aw / t.clump_w plane * (ah / t.clump_h plane) * cu
  else if t.is_block_linear then
    stride * (p0_ah / 16)
  else
    stride * ah

/-- From the source (`calc_allocation_size`): the per-plane header size;
only AFBC planes have a header. -/
def calc_header_size (t : alloc_type_t) (aw ah : Nat) : Nat :=
  if t.is_afbc then afbc_buffer_align t.is_tiled (aw * ah / 256 * 16) else 0

/-- From the source (`calc_allocation_size`): the AFRC plane alignment
applied to the running total before a plane's body is added. -/
def afrc_plane_alignment (t : alloc_type_t) (plane : Nat) : Nat :=
  if plane = 0 then t.afrc.rgba_luma_plane_alignment
  else t.afrc.chroma_plane_alignment

/-- From the source (`calc_allocation_size`): the running total after the
AFRC pre-plane alignment; unchanged for every other encoding. -/
def plane_size_base (t : alloc_type_t) (plane size : Nat) : Nat :=
  if t.is_afrc then GRALLOC_ALIGN size (afrc_plane_alignment t plane) else size

/-- From the source: one iteration of `calc_allocation_size`'s plane loop:
compute the plane's dimensions, stride, body and header, set its offset
to the running total (plane 0's offset is 0), and advance the total.
`p0` carries plane 0's record for the planes after it (`none` while
computing plane 0 itself). -/
def calc_plane (width height : Nat) (t : alloc_type_t) (f : format_info_t)
    (cpu hw : Bool) (plane : Nat) (p0 : Option plane_info_t) (size : Nat) :
    PlaneCalc × Nat :=
  let wh := get_pixel_w_h width height f t plane cpu
  let aw := wh.1
  let ah := wh.2
  let p0_aw := match p0 with | none => aw | some q => q.alloc_width
  let p0_ah := match p0 with | none => ah | some q => q.alloc_height
  let p0_stride := match p0 with | none => 0 | some q => q.byte_stride
  let stride := calc_byte_stride t f cpu hw plane aw p0_aw p0_stride
  let body := calc_body_size t f plane aw ah stride p0_ah
  let header := calc_header_size t aw ah
  let sbase := plane_size_base t plane size
  ({ info := { offset := if plane = 0 then 0 else sbase
               byte_stride := stride
               alloc_width := aw
               alloc_height := ah }
     body_size := body
     header_size := header },
   sbase + body + header)

/-- From the source: the tail of `calc_allocation_size`'s loop for the
planes after plane 0, threading the running total. -/
def calc_planes (width height : Nat) (t : alloc_type_t) (f : format_info_t)
    (cpu hw : Bool) (p0 : plane_info_t) :
    List Nat → Nat → List PlaneCalc × Nat
  | [], size => ([], size)
  | p :: ps, size =>
    let r := calc_plane width height t f cpu hw p (some p0) size
    let rest := calc_planes width height t f cpu hw p0 ps r.2
    (r.1 :: rest.1, rest.2)

/-- The computed buffer layout: CPU pixel stride, total size, and the
ordered per-plane results. -/
structure BufferLayout where
  pixel_stride : Nat
  size : Nat
  planes : List PlaneCalc
deriving DecidableEq, Repr

/-- From the source: `calc_allocation_size` computes every plane of the
format in order, the total size, and the CPU pixel stride (plane 0,
uncompressed CPU-accessible buffers only). -/
def calc_allocation_size (width height : Nat) (t : alloc_type_t)
    (f : format_info_t) (cpu hw : Bool) : BufferLayout :=
  if f.npln = 0 then
    { pixel_stride := 0, size := 0, planes := [] }
  else
    let r0 := calc_plane width height t f cpu hw 0 none 0
    let rest := calc_planes width height t f cpu hw r0.1.info
                  (List.range' 1 (f.npln - 1)) r0.2
    let pixel_stride :=
      if t.is_afbc = false ∧ t.is_afrc = false ∧ t.is_block_linear = false ∧
         cpu = true then
        r0.1.info.byte_stride * 8 / f.bpp.getD 0 0
      else 0
    { pixel_stride := pixel_stride
      size := rest.2
      planes := r0.1 :: rest.1 }

/-- From the source: `validate_format` checks the chosen encoding against
the catalog capability flags and the structural BLOB height rule;
`height` is the requested buffer height from the descriptor. -/
def validate_format (f : format_info_t) (t : alloc_type_t) (height : Nat) : Bool :=
  (if t.is_afbc then
     f.afbc ∧ ((f.npln = 1 ∧ t.is_multi_plane = true) ∨
               (1 < f.npln ∧ t.is_multi_plane = false)) = false
   else if t.is_afrc then f.afrc
   else if t.is_block_linear then f.block_linear
   else f.linear) ∧
  (f.id = MALI_GRALLOC_FORMAT_INTERNAL_BLOB ∧ height ≠ 1) = false

/-- From the source: `mali_gralloc_derive_format_and_size`, from the point
where the internal format has been selected: derive the allocation type,
validate it, compute the layout, and replicate it over the layer count
with the AFBC layer alignment.  The format-selection and
dimension-adjustment collaborators (`mali_gralloc_select_format`,
`mali_gralloc_adjust_dimensions`) are not among the supplied sources;
following the spec, their outputs are the function's inputs. -/
def mali_gralloc_derive_format_and_size (ext : FormatExt) (f : format_info_t)
    (usage : Usage) (width height layer_count : Nat) : Option BufferLayout :=
  match get_alloc_type ext f usage with
  | .error _ => none
  | .ok t =>
    if validate_format f t height then
      let L := calc_allocation_size width height t f usage.cpu usage.hw
      let size :=
        if 1 < layer_count then
          (if is_format_afbc ext then
             if ext.afbc_tiled_headers then GRALLOC_ALIGN L.size 4096
             else GRALLOC_ALIGN L.size 128
           else L.size) * layer_count
        else L.size
      some { L with size := size }
    else none

/-- From the source (`drm_utils.cpp`): the colour model recorded per
table entry. -/
inductive format_colormodel where
  | rgb
  | yuv
deriving DecidableEq, Repr

/-- From the source (`drm_utils.cpp`): one entry of the fourcc table. -/
structure table_entry where
  fourcc : Nat
  colormodel : format_colormodel
deriving DecidableEq, Repr

/-- Modelled from the spec: the remaining distinct internal format
identifiers keyed by the fourcc table (their defining header is not among
the supplied sources; only their distinctness matters).  `RAW16 := 101`,
`RGBA_8888 := 102`, ..., matching the order of the source table. -/
def MALI_GRALLOC_FORMAT_INTERNAL_RAW16 : Nat := 101

/-- Modelled from the spec: internal identifier of RGBA_8888. -/
def MALI_GRALLOC_FORMAT_INTERNAL_RGBA_8888 : Nat := 102

/-- Modelled from the spec: internal identifier of BGRA_8888. -/
def MALI_GRALLOC_FORMAT_INTERNAL_BGRA_8888 : Nat := 103

/-- Modelled from the spec: internal identifier of RGB_565. -/
def MALI_GRALLOC_FORMAT_INTERNAL_RGB_565 : Nat := 104

/-- Modelled from the spec: internal identifier of RGBX_8888. -/
def MALI_GRALLOC_FORMAT_INTERNAL_RGBX_8888 : Nat := 105

/-- Modelled from the spec: internal identifier of RGB_888. -/
def MALI_GRALLOC_FORMAT_INTERNAL_RGB_888 : Nat := 106

/-- Modelled from the spec: internal identifier of RGBA_1010102. -/
def MALI_GRALLOC_FORMAT_INTERNAL_RGBA_1010102 : Nat := 107

/-- Modelled from the spec: internal identifier of RGBA_16161616. -/
def MALI_GRALLOC_FORMAT_INTERNAL_RGBA_16161616 : Nat := 108

/-- Modelled from the spec: internal identifier of RGBA_10101010. -/
def MALI_GRALLOC_FORMAT_INTERNAL_RGBA_10101010 : Nat := 109

/-- Modelled from the spec: internal identifier of YU12. -/
def MALI_GRALLOC_FORMAT_INTERNAL_YU12 : Nat := 111

/-- Modelled from the spec: internal identifier of NV12. -/
def MALI_GRALLOC_FORMAT_INTERNAL_NV12 : Nat := 112

/-- Modelled from the spec: internal identifier of NV15. -/
def MALI_GRALLOC_FORMAT_INTERNAL_NV15 : Nat := 113

/-- Modelled from the spec: internal identifier of NV16. -/
def MALI_GRALLOC_FORMAT_INTERNAL_NV16 : Nat := 114

/-- Modelled from the spec: internal identifier of NV21. -/
def MALI_GRALLOC_FORMAT_INTERNAL_NV21 : Nat := 115

/-- Modelled from the spec: internal identifier of Y0L2. -/
def MALI_GRALLOC_FORMAT_INTERNAL_Y0L2 : Nat := 116

/-- Modelled from the spec: internal identifier of Y210. -/
def MALI_GRALLOC_FORMAT_INTERNAL_Y210 : Nat := 117

/-- Modelled from the spec: internal identifier of P010. -/
def MALI_GRALLOC_FORMAT_INTERNAL_P010 : Nat := 118

/-- Modelled from the spec: internal identifier of P210. -/
def MALI_GRALLOC_FORMAT_INTERNAL_P210 : Nat := 119

/-- Modelled from the spec: internal identifier of Y410. -/
def MALI_GRALLOC_FORMAT_INTERNAL_Y410 : Nat := 120

/-- Modelled from the spec: internal identifier of YUV444. -/
def MALI_GRALLOC_FORMAT_INTERNAL_YUV444 : Nat := 121

/-- Modelled from the spec: internal identifier of Q410. -/
def MALI_GRALLOC_FORMAT_INTERNAL_Q410 : Nat := 122

/-- Modelled from the spec: internal identifier of Q401. -/
def MALI_GRALLOC_FORMAT_INTERNAL_Q401 : Nat := 123

/-- Modelled from the spec: internal identifier of YUV422_8BIT. -/
def MALI_GRALLOC_FORMAT_INTERNAL_YUV422_8BIT : Nat := 124

/-- Modelled from the spec: internal identifier of YUV420_8BIT_I. -/
def MALI_GRALLOC_FORMAT_INTERNAL_YUV420_8BIT_I : Nat := 125

/-- Modelled from the spec: internal identifier of YUV420_10BIT_I. -/
def MALI_GRALLOC_FORMAT_INTERNAL_YUV420_10BIT_I : Nat := 126

/-- Modelled from the spec: the Android P HAL identifier for YCbCr P010,
a second table key mapped to the same fourcc as internal P010. -/
def HAL_PIXEL_FORMAT_YCBCR_P010 : Nat := 127

/-- Modelled from the spec: the DRM invalid-format code. -/
def DRM_FORMAT_INVALID : Nat := 0

/-- Modelled from the spec: distinct DRM four-character format codes
(`drm_fourcc.h` is not among the supplied sources; only their
distinctness matters).  Numbered 201... in table order. -/
def DRM_FORMAT_R16 : Nat := 201

/-- Modelled from the spec: DRM code ABGR8888. -/
def DRM_FORMAT_ABGR8888 : Nat := 202

/-- Modelled from the spec: DRM code ARGB8888. -/
def DRM_FORMAT_ARGB8888 : Nat := 203

/-- Modelled from the spec: DRM code RGB565. -/
def DRM_FORMAT_RGB565 : Nat := 204

/-- Modelled from the spec: DRM code XBGR8888. -/
def DRM_FORMAT_XBGR8888 : Nat := 205

/-- Modelled from the spec: DRM code BGR888. -/
def DRM_FORMAT_BGR888 : Nat := 206

/-- Modelled from the spec: DRM code ABGR2101010. -/
def DRM_FORMAT_ABGR2101010 : Nat := 207

/-- Modelled from the spec: DRM code ABGR16161616F. -/
def DRM_FORMAT_ABGR16161616F : Nat := 208

/-- Modelled from the spec: DRM code AXBXGXRX106106106106. -/
def DRM_FORMAT_AXBXGXRX106106106106 : Nat := 209

/-- Modelled from the spec: DRM code YVU420. -/
def DRM_FORMAT_YVU420 : Nat := 210

/-- Modelled from the spec: DRM code YUV420. -/
def DRM_FORMAT_YUV420 : Nat := 211

/-- Modelled from the spec: DRM code NV12. -/
def DRM_FORMAT_NV12 : Nat := 212

/-- Modelled from the spec: DRM code NV15. -/
def DRM_FORMAT_NV15 : Nat := 213

/-- Modelled from the spec: DRM code NV16. -/
def DRM_FORMAT_NV16 : Nat := 214

/-- Modelled from the spec: DRM code NV21. -/
def DRM_FORMAT_NV21 : Nat := 215

/-- Modelled from the spec: DRM code Y0L2. -/
def DRM_FORMAT_Y0L2 : Nat := 216

/-- Modelled from the spec: DRM code Y210. -/
def DRM_FORMAT_Y210 : Nat := 217

/-- Modelled from the spec: DRM code P010. -/
def DRM_FORMAT_P010 : Nat := 218

/-- Modelled from the spec: DRM code P210. -/
def DRM_FORMAT_P210 : Nat := 219

/-- Modelled from the spec: DRM code Y410. -/
def DRM_FORMAT_Y410 : Nat := 220

/-- Modelled from the spec: DRM code YUV444. -/
def DRM_FORMAT_YUV444 : Nat := 221

/-- Modelled from the spec: DRM code Q410. -/
def DRM_FORMAT_Q410 : Nat := 222

/-- Modelled from the spec: DRM code Q401. -/
def DRM_FORMAT_Q401 : Nat := 223

/-- Modelled from the spec: DRM code YUYV. -/
def DRM_FORMAT_YUYV : Nat := 224

/-- Modelled from the spec: DRM code YUV420_8BIT. -/
def DRM_FORMAT_YUV420_8BIT : Nat := 225

/-- Modelled from the spec: DRM code YUV420_10BIT. -/
def DRM_FORMAT_YUV420_10BIT : Nat := 226

/-- Modelled from the spec: DRM code BGR565, the alternative code the
mapper returns for RGB565 under block-compression. -/
def DRM_FORMAT_BGR565 : Nat := 227

/-- From the source (`drm_utils.cpp`): the internal-format to fourcc
table, in source order. -/
def table : List (Nat × table_entry) :=
  [ (MALI_GRALLOC_FORMAT_INTERNAL_RAW16, { fourcc := DRM_FORMAT_R16, colormodel := .rgb }),
    (MALI_GRALLOC_FORMAT_INTERNAL_RGBA_8888, { fourcc := DRM_FORMAT_ABGR8888, colormodel := .rgb }),
    (MALI_GRALLOC_FORMAT_INTERNAL_BGRA_8888, { fourcc := DRM_FORMAT_ARGB8888, colormodel := .rgb }),
    (MALI_GRALLOC_FORMAT_INTERNAL_RGB_565, { fourcc := DRM_FORMAT_RGB565, colormodel := .rgb }),
    (MALI_GRALLOC_FORMAT_INTERNAL_RGBX_8888, { fourcc := DRM_FORMAT_XBGR8888, colormodel := .rgb }),
    (MALI_GRALLOC_FORMAT_INTERNAL_RGB_888, { fourcc := DRM_FORMAT_BGR888, colormodel := .rgb }),
    (MALI_GRALLOC_FORMAT_INTERNAL_RGBA_1010102, { fourcc := DRM_FORMAT_ABGR2101010, colormodel := .rgb }),
    (MALI_GRALLOC_FORMAT_INTERNAL_RGBA_16161616, { fourcc := DRM_FORMAT_ABGR16161616F, colormodel := .rgb }),
    (MALI_GRALLOC_FORMAT_INTERNAL_RGBA_10101010, { fourcc := DRM_FORMAT_AXBXGXRX106106106106, colormodel := .rgb }),
    (MALI_GRALLOC_FORMAT_INTERNAL_YV12, { fourcc := DRM_FORMAT_YVU420, colormodel := .yuv }),
    (MALI_GRALLOC_FORMAT_INTERNAL_YU12, { fourcc := DRM_FORMAT_YUV420, colormodel := .yuv }),
    (MALI_GRALLOC_FORMAT_INTERNAL_NV12, { fourcc := DRM_FORMAT_NV12, colormodel := .yuv }),
    (MALI_GRALLOC_FORMAT_INTERNAL_NV15, { fourcc := DRM_FORMAT_NV15, colormodel := .yuv }),
    (MALI_GRALLOC_FORMAT_INTERNAL_NV16, { fourcc := DRM_FORMAT_NV16, colormodel := .yuv }),
    (MALI_GRALLOC_FORMAT_INTERNAL_NV21, { fourcc := DRM_FORMAT_NV21, colormodel := .yuv }),
    (MALI_GRALLOC_FORMAT_INTERNAL_Y0L2, { fourcc := DRM_FORMAT_Y0L2, colormodel := .yuv }),
    (MALI_GRALLOC_FORMAT_INTERNAL_Y210, { fourcc := DRM_FORMAT_Y210, colormodel := .yuv }),
    (MALI_GRALLOC_FORMAT_INTERNAL_P010, { fourcc := DRM_FORMAT_P010, colormodel := .yuv }),
    (MALI_GRALLOC_FORMAT_INTERNAL_P210, { fourcc := DRM_FORMAT_P210, colormodel := .yuv }),
    (MALI_GRALLOC_FORMAT_INTERNAL_Y410, { fourcc := DRM_FORMAT_Y410, colormodel := .yuv }),
    (MALI_GRALLOC_FORMAT_INTERNAL_YUV444, { fourcc := DRM_FORMAT_YUV444, colormodel := .yuv }),
    (MALI_GRALLOC_FORMAT_INTERNAL_Q410, { fourcc := DRM_FORMAT_Q410, colormodel := .yuv }),
    (MALI_GRALLOC_FORMAT_INTERNAL_Q401, { fourcc := DRM_FORMAT_Q401, colormodel := .yuv }),
    (MALI_GRALLOC_FORMAT_INTERNAL_YUV422_8BIT, { fourcc := DRM_FORMAT_YUYV, colormodel := .yuv }),
    (MALI_GRALLOC_FORMAT_INTERNAL_YUV420_8BIT_I, { fourcc := DRM_FORMAT_YUV420_8BIT, colormodel := .yuv }),
    (MALI_GRALLOC_FORMAT_INTERNAL_YUV420_10BIT_I, { fourcc := DRM_FORMAT_YUV420_10BIT, colormodel := .yuv }),
    (HAL_PIXEL_FORMAT_YCBCR_P010, { fourcc := DRM_FORMAT_P010, colormodel := .yuv }) ]

/-- From the source: the buffer handle fields `drm_fourcc_from_handle`
reads: the internal (base) format identifier and the modifier bits of
`alloc_format`. -/
structure HandleFmt where
  internal_format : Nat
  ext : FormatExt
deriving DecidableEq, Repr

/-- From the source: `drm_fourcc_from_handle` looks the internal format
up in the table; an absent id gives the invalid code, and RGB565 under
block-compression gives the alternative BGR565 code. -/
def drm_fourcc_from_handle (hnd : HandleFmt) : Nat :=
  match table.lookup hnd.internal_format with
  | none => DRM_FORMAT_INVALID
  | some entry =>
    if is_format_afbc hnd.ext = true ∧
       hnd.internal_format = MALI_GRALLOC_FORMAT_INTERNAL_RGB_565 then
      DRM_FORMAT_BGR565
    else entry.fourcc

/-- An encoding-flags value with no compression bits set. -/
def ext_none : FormatExt :=
  { afbc := false, afbc_wideblk := false, afbc_extrawideblk := false,
    afbc_tiled_headers := false, afbc_double_body := false,
    afbc_yuv_transform := false, afbc_splitblk := false, afbc_bch := false,
    afbc_sparse := false, afbc_usm := false, afrc := false,
    afrc_rot_layout := false, afrc_rgba_cu_field := 0,
    afrc_chroma_cu_field := 0, block_linear := false }

/-- A usage value with no bits set. -/
def usage_none : Usage := { afbc_padding := false, cpu := false, hw := false }

/-- A two-plane NV12-like uncompressed catalog entry, used as a concrete
witness format. -/
def fmt_nv12 : format_info_t :=
  { id := MALI_GRALLOC_FORMAT_INTERNAL_NV12, npln := 2, bpp := [8, 16],
    bpp_afbc := [8, 16], hsub := 2, vsub := 2, align_w := 2, align_h := 2,
    align_w_cpu := 16, tile_size := 1, is_yuv := true, ncmp := [1, 2],
    afbc := true, afrc := true, block_linear := true, linear := true }

/-- A two-plane AFBC-capable YUV catalog entry with trivial channel and
CPU alignments, used for concrete counterexamples. -/
def fmt_yuv2p : format_info_t :=
  { id := 200, npln := 2, bpp := [8, 16], bpp_afbc := [8, 16],
    hsub := 1, vsub := 1, align_w := 1, align_h := 1, align_w_cpu := 1,
    tile_size := 1, is_yuv := true, ncmp := [1, 2],
    afbc := true, afrc := false, block_linear := false, linear := true }

/-- A single-plane 32-bit RGBA-like AFBC-capable catalog entry with
trivial alignments, used for concrete counterexamples. -/
def fmt_rgba32 : format_info_t :=
  { id := 201, npln := 1, bpp := [32], bpp_afbc := [32],
    hsub := 1, vsub := 1, align_w := 1, align_h := 1, align_w_cpu := 1,
    tile_size := 1, is_yuv := false, ncmp := [4],
    afbc := true, afrc := true, block_linear := true, linear := true }

/-- The RGBA-like entry with a declared tile size larger than an AFBC
basic superblock. -/
def fmt_rgba32_tile17 : format_info_t := { fmt_rgba32 with tile_size := 17 }

/-- The uncompressed multi-plane allocation type
(`get_alloc_type ext_none fmt_nv12 usage_none`). -/
def t_uncmp_mp : alloc_type_t :=
  { primary_type := .UNCOMPRESSED, is_multi_plane := true, is_tiled := false,
    is_padded := false, is_frontbuffer_safe := false, afrc := default }

/-- The multi-plane tiled extra-wide AFBC allocation type
(`get_alloc_type ext_afbc_xw_tiled fmt_yuv2p usage_none`). -/
def t_afbc_xw_mp : alloc_type_t :=
  { primary_type := .AFBC_EXTRAWIDEBLK, is_multi_plane := true,
    is_tiled := true, is_padded := false, is_frontbuffer_safe := false,
    afrc := default }

/-- The single-plane basic untiled AFBC allocation type
(`get_alloc_type ext_afbc fmt_rgba32 usage_none`). -/
def t_afbc_basic : alloc_type_t :=
  { primary_type := .AFBC, is_multi_plane := false, is_tiled := false,
    is_padded := false, is_frontbuffer_safe := false, afrc := default }

/-- Encoding flags requesting basic block-compression only. -/
def ext_afbc : FormatExt := { ext_none with afbc := true }

/-- Encoding flags requesting extra-wide block-compression without tiled
headers. -/
def ext_afbc_xw : FormatExt := { ext_none with afbc := true, afbc_extrawideblk := true }

/-- Encoding flags requesting extra-wide block-compression with tiled
headers. -/
def ext_afbc_xw_tiled : FormatExt :=
  { ext_none with afbc := true, afbc_extrawideblk := true, afbc_tiled_headers := true }

/-- Encoding flags requesting wide and extra-wide block-compression with
tiled headers and the double-body (front-buffer) bit. -/
def ext_afbc_wide_xw_tiled_db : FormatExt :=
  { ext_none with
    afbc := true
    afbc_wideblk := true
    afbc_extrawideblk := true
    afbc_tiled_headers := true
    afbc_double_body := true }

/-- Encoding flags requesting wide block-compression with tiled headers
and the double-body (front-buffer) bit. -/
def ext_afbc_wide_tiled_db : FormatExt :=
  { ext_none with
    afbc := true
    afbc_wideblk := true
    afbc_tiled_headers := true
    afbc_double_body := true }

/-- Encoding flags requesting fixed-rate-compression with the reserved
(fourth) coding-unit field value in the luma/RGBA plane group. -/
def ext_afrc_bad_cu : FormatExt := { ext_none with afrc := true, afrc_rgba_cu_field := 3 }

/-- Encoding flags requesting fixed-rate-compression with the rotated
layout bit. -/
def ext_afrc_rot : FormatExt := { ext_none with afrc := true, afrc_rot_layout := true }

/-- The fixed-rate-compressed allocation type
(`get_alloc_type ext_afrc_rot fmt_nv12 usage_none`): rotated 8x8 paging
tiles, 16-byte coding units in both plane groups. -/
def t_afrc_rot : alloc_type_t :=
  { primary_type := .AFRC, is_multi_plane := true, is_tiled := false,
    is_padded := false, is_frontbuffer_safe := false,
    afrc :=
      { paging_tile_width := 8, paging_tile_height := 8,
        rgba_luma_coding_unit_bytes := 16, rgba_luma_plane_alignment := 1024,
        chroma_coding_unit_bytes := 16, chroma_plane_alignment := 1024,
        clumps := [(8, 8), (8, 4)] } }

/-- Rounding up never decreases a value. -/
theorem le_GRALLOC_ALIGN (v b : Nat) : v ≤ GRALLOC_ALIGN v b := by
  unfold GRALLOC_ALIGN
  split
  · exact Nat.le_refl v
  · rename_i hb
    have hb' : 0 < b := Nat.pos_of_ne_zero hb
    have key := Nat.lt_div_mul_add (a := v + b - 1) hb'
    omega

/-- Rounding zero up gives zero. -/
theorem GRALLOC_ALIGN_zero_left (b : Nat) : GRALLOC_ALIGN 0 b = 0 := by
  unfold GRALLOC_ALIGN
  split
  · rfl
  · rename_i hb
    have hb' : 0 < b := Nat.pos_of_ne_zero hb
    have : (0 + b - 1) / b = 0 := Nat.div_eq_of_lt (by omega)
    rw [this, Nat.zero_mul]

/-- A divisor of a non-zero base divides the rounded-up value. -/
theorem dvd_GRALLOC_ALIGN {d b : Nat} (v : Nat) (hd : d ∣ b) (hb : b ≠ 0) :
    d ∣ GRALLOC_ALIGN v b := by
  unfold GRALLOC_ALIGN
  rw [if_neg hb]
  exact hd.mul_left _

/-- C3: for every format and dimension-independent context (format entry
and usage), an encoding-flags value that requests extra-wide
block-compression without tiled headers makes `get_alloc_type` fail with
the hard invalid-encoding-combination error, so no layout is produced. -/
theorem get_alloc_type_extrawide_untiled_fails (ext : FormatExt)
    (fmt : format_info_t) (usage : Usage)
    (hafbc : ext.afbc = true) (hx : ext.afbc_extrawideblk = true)
    (ht : ext.afbc_tiled_headers = false) :
    get_alloc_type ext fmt usage = .error .invalidEncodingCombination := by
  unfold get_alloc_type
  simp [hafbc, hx, ht]

/-- Witness for C3 at a concrete input: extra-wide without tiled headers
on the RGBA-like format fails. -/
theorem get_alloc_type_extrawide_untiled_fails_witness :
    ext_afbc_xw.afbc = true ∧ ext_afbc_xw.afbc_extrawideblk = true ∧
    ext_afbc_xw.afbc_tiled_headers = false ∧
    get_alloc_type ext_afbc_xw fmt_rgba32 usage_none =
      .error .invalidEncodingCombination :=
  ⟨by decide, by decide, by decide,
   get_alloc_type_extrawide_untiled_fails ext_afbc_xw fmt_rgba32 usage_none
     (by decide) (by decide) (by decide)⟩

/-- C9: for every multi-plane block-compressed allocation type, every
plane after plane 0 uses the extra-wide 64x4 superblock dimensions,
regardless of which superblock class is the primary type; these are the
dimensions `get_pixel_w_h` and `calc_body_size` use for that plane's
alignment, stride and body computation. -/
theorem get_afbc_sb_size_multiplane (t : alloc_type_t) (plane : Nat)
    (hafbc : t.is_afbc = true) (hmp : t.is_multi_plane = true) (hp : 0 < plane) :
    get_afbc_sb_size t plane = { width := 64, height := 4 } := by
  unfold get_afbc_sb_size
  rw [if_pos ⟨hp, hafbc, hmp⟩]
  rfl

/-- Witness for C9 at a concrete input: plane 1 of the multi-plane tiled
extra-wide type (whose primary class could equally have been any of the
three) gets the 64x4 superblock. -/
theorem get_afbc_sb_size_multiplane_witness :
    t_afbc_xw_mp.is_afbc = true ∧ t_afbc_xw_mp.is_multi_plane = true ∧
    0 < 1 ∧ get_afbc_sb_size t_afbc_xw_mp 1 = { width := 64, height := 4 } :=
  ⟨by decide, by decide, by decide,
   get_afbc_sb_size_multiplane t_afbc_xw_mp 1 (by decide) (by decide) (by decide)⟩

/-- C4 counterexample: the claim "for every multi-plane format, a
block-compression request without the tiled-headers flag succeeds ...
the computation proceeds — a downgrade, never an error" fails as
stated: a basic block-compression request on the two-plane format does
pass the selector in single-plane mode, but the downgraded decision
then fails `validate_format` (single-plane decision on a multi-plane
format), so the derivation returns an error and no layout is produced;
and with the extra-wide flag, selection itself is a hard error. -/
theorem get_alloc_type_untiled_multiplane_counterexample :
    1 < fmt_yuv2p.npln ∧
    ext_afbc.afbc = true ∧ ext_afbc.afbc_tiled_headers = false ∧
    get_alloc_type ext_afbc fmt_yuv2p usage_none = .ok t_afbc_basic ∧
    t_afbc_basic.is_multi_plane = false ∧
    validate_format fmt_yuv2p t_afbc_basic 64 = false ∧
    mali_gralloc_derive_format_and_size ext_afbc fmt_yuv2p usage_none
      64 64 1 = none ∧
    ext_afbc_xw.afbc = true ∧ ext_afbc_xw.afbc_tiled_headers = false ∧
    get_alloc_type ext_afbc_xw fmt_yuv2p usage_none =
      .error .invalidEncodingCombination := by
  decide

/-- C4 (amended): for every multi-plane format, a block-compression
request without the tiled-headers flag and without the extra-wide flag
succeeds at encoding selection, with the selector forcing single-plane
mode — at the selector level a downgrade, not an error; but the
downgraded single-plane decision is then rejected by format validation
(single-plane decision on a multi-plane format), so the overall
derivation fails and no layout is produced.  (With the extra-wide flag,
selection itself fails hard; see C3.) -/
theorem get_alloc_type_untiled_multiplane_downgrade (ext : FormatExt)
    (fmt : format_info_t) (usage : Usage)
    (hafbc : ext.afbc = true) (ht : ext.afbc_tiled_headers = false)
    (hx : ext.afbc_extrawideblk = false) (hn : 1 < fmt.npln) :
    ∃ t, get_alloc_type ext fmt usage = .ok t ∧ t.is_multi_plane = false ∧
      (∀ height, validate_format fmt t height = false) ∧
      (∀ width height layer_count,
        mali_gralloc_derive_format_and_size ext fmt usage
          width height layer_count = none) := by
  cases hw : ext.afbc_wideblk with
  | true =>
    refine ⟨{ primary_type := .AFBC_WIDEBLK, is_multi_plane := false,
              is_tiled := false, is_padded := usage.afbc_padding,
              is_frontbuffer_safe := false, afrc := default }, ?_, rfl, ?_, ?_⟩
    · unfold get_alloc_type
      simp [hafbc, ht, hx, hw]
    · intro height
      unfold validate_format
      simp [alloc_type_t.is_afbc, hn]
    · intro width height layer_count
      unfold mali_gralloc_derive_format_and_size
      have hok : get_alloc_type ext fmt usage = .ok
          { primary_type := .AFBC_WIDEBLK, is_multi_plane := false,
            is_tiled := false, is_padded := usage.afbc_padding,
            is_frontbuffer_safe := false, afrc := default } := by
        unfold get_alloc_type
        simp [hafbc, ht, hx, hw]
      rw [hok]
      simp only []
      have hval : validate_format fmt
          { primary_type := .AFBC_WIDEBLK, is_multi_plane := false,
            is_tiled := false, is_padded := usage.afbc_padding,
            is_frontbuffer_safe := false, afrc := default } height = false := by
        unfold validate_format
        simp [alloc_type_t.is_afbc, hn]
      rw [hval]
      simp
  | false =>
    refine ⟨{ primary_type := .AFBC, is_multi_plane := false,
              is_tiled := false, is_padded := usage.afbc_padding,
              is_frontbuffer_safe := false, afrc := default }, ?_, rfl, ?_, ?_⟩
    · unfold get_alloc_type
      simp [hafbc, ht, hx, hw]
    · intro height
      unfold validate_format
      simp [alloc_type_t.is_afbc, hn]
    · intro width height layer_count
      unfold mali_gralloc_derive_format_and_size
      have hok : get_alloc_type ext fmt usage = .ok
          { primary_type := .AFBC, is_multi_plane := false,
            is_tiled := false, is_padded := usage.afbc_padding,
            is_frontbuffer_safe := false, afrc := default } := by
        unfold get_alloc_type
        simp [hafbc, ht, hx, hw]
      rw [hok]
      simp only []
      have hval : validate_format fmt
          { primary_type := .AFBC, is_multi_plane := false,
            is_tiled := false, is_padded := usage.afbc_padding,
            is_frontbuffer_safe := false, afrc := default } height = false := by
        unfold validate_format
        simp [alloc_type_t.is_afbc, hn]
      rw [hval]
      simp

/-- Witness for the amended C4 at a concrete input: a basic
block-compression request on the two-plane format passes the selector
in single-plane mode, then fails validation, and the derivation
produces no layout. -/
theorem get_alloc_type_untiled_multiplane_downgrade_witness :
    ext_afbc.afbc = true ∧ ext_afbc.afbc_tiled_headers = false ∧
    ext_afbc.afbc_extrawideblk = false ∧ 1 < fmt_yuv2p.npln ∧
    ∃ t, get_alloc_type ext_afbc fmt_yuv2p usage_none = .ok t ∧
      t.is_multi_plane = false ∧
      (∀ height, validate_format fmt_yuv2p t height = false) ∧
      (∀ width height layer_count,
        mali_gralloc_derive_format_and_size ext_afbc fmt_yuv2p usage_none
          width height layer_count = none) :=
  ⟨by decide, by decide, by decide, by decide,
   get_alloc_type_untiled_multiplane_downgrade ext_afbc fmt_yuv2p usage_none
     (by decide) (by decide) (by decide) (by decide)⟩

/-- C10 counterexample: the claim fails as stated in two ways: with both
wide and extra-wide set on a single-plane format the request is rejected
at selection (by the implicit-multi-plane rule) even though tiled
headers and the double-body bit are present; and with wide (without
extra-wide) on a multi-plane format, selection succeeds with
`is_frontbuffer_safe` set but the downgraded single-plane decision then
fails validation, so no layout is produced. -/
theorem get_alloc_type_frontbuffer_wide_counterexample :
    ext_afbc_wide_xw_tiled_db.afbc_tiled_headers = true ∧
    ext_afbc_wide_xw_tiled_db.afbc_double_body = true ∧
    ext_afbc_wide_xw_tiled_db.afbc_wideblk = true ∧
    get_alloc_type ext_afbc_wide_xw_tiled_db fmt_rgba32 usage_none =
      .error .invalidEncodingCombination ∧
    ext_afbc_wide_tiled_db.afbc_tiled_headers = true ∧
    ext_afbc_wide_tiled_db.afbc_double_body = true ∧
    ext_afbc_wide_tiled_db.afbc_wideblk = true ∧
    1 < fmt_yuv2p.npln ∧
    get_alloc_type ext_afbc_wide_tiled_db fmt_yuv2p usage_none =
      .ok { primary_type := .AFBC_WIDEBLK, is_multi_plane := false,
            is_tiled := true, is_padded := false,
            is_frontbuffer_safe := true, afrc := default } ∧
    mali_gralloc_derive_format_and_size ext_afbc_wide_tiled_db fmt_yuv2p
      usage_none 64 64 1 = none := by
  decide

/-- C10 (amended): requesting front-buffer double-buffering (tiled
headers plus the double-body flag) together with wide or extra-wide
block-compression does not make encoding selection fail — the selector
only logs — and the returned type has `is_frontbuffer_safe` set; the
sole selection-level exception is wide and extra-wide both set on a
single-plane format, which the unrelated implicit-multi-plane rule
rejects.  A layout is then produced for every block-compression-capable
non-BLOB format whose plane structure survives validation (single-plane
formats, and multi-plane formats with extra-wide set); for a multi-plane
format without extra-wide, the forced single-plane downgrade is rejected
by validation, so selection succeeds but no layout is produced. -/
theorem get_alloc_type_frontbuffer_wide_ok (ext : FormatExt)
    (fmt : format_info_t) (usage : Usage)
    (hafbc : ext.afbc = true) (htl : ext.afbc_tiled_headers = true)
    (hdb : ext.afbc_double_body = true)
    (hwx : ext.afbc_wideblk = true ∨ ext.afbc_extrawideblk = true)
    (hc : ¬(fmt.npln = 1 ∧ ext.afbc_wideblk = true ∧
      ext.afbc_extrawideblk = true)) :
    ∃ t, get_alloc_type ext fmt usage = .ok t ∧ t.is_frontbuffer_safe = true ∧
      (fmt.afbc = true → fmt.id ≠ MALI_GRALLOC_FORMAT_INTERNAL_BLOB →
        (fmt.npln = 1 ∨ ext.afbc_extrawideblk = true) →
        ∀ width height layer_count,
          mali_gralloc_derive_format_and_size ext fmt usage
            width height layer_count ≠ none) ∧
      (1 < fmt.npln → ext.afbc_extrawideblk = false →
        ∀ width height layer_count,
          mali_gralloc_derive_format_and_size ext fmt usage
            width height layer_count = none) := by
  cases hxw : ext.afbc_extrawideblk with
  | false =>
    have hw : ext.afbc_wideblk = true := by
      rcases hwx with h | h
      · exact h
      · rw [h] at hxw; cases hxw
    by_cases hn1 : 1 < fmt.npln
    · have hok : get_alloc_type ext fmt usage = .ok
          { primary_type := .AFBC_WIDEBLK, is_multi_plane := false,
            is_tiled := true, is_padded := usage.afbc_padding,
            is_frontbuffer_safe := true, afrc := default } := by
        unfold get_alloc_type
        simp [hafbc, htl, hdb, hxw, hw, hn1]
      have hval : ∀ height, validate_format fmt
          { primary_type := .AFBC_WIDEBLK, is_multi_plane := false,
            is_tiled := true, is_padded := usage.afbc_padding,
            is_frontbuffer_safe := true, afrc := default } height = false := by
        intro height
        unfold validate_format
        simp [alloc_type_t.is_afbc, hn1]
      refine ⟨_, hok, rfl, ?_, ?_⟩
      · rintro _ _ (h1 | h1)
        · omega
        · exact Bool.noConfusion h1
      · intro _ hxf width height layer_count
        unfold mali_gralloc_derive_format_and_size
        rw [hok]
        simp only []
        rw [hval height]
        simp
    · have hok : get_alloc_type ext fmt usage = .ok
          { primary_type := .AFBC_WIDEBLK, is_multi_plane := false,
            is_tiled := true, is_padded := usage.afbc_padding,
            is_frontbuffer_safe := true, afrc := default } := by
        unfold get_alloc_type
        simp [hafbc, htl, hdb, hxw, hw, hn1]
      refine ⟨_, hok, rfl, ?_, ?_⟩
      · intro hfa hid _ width height layer_count
        have hval : validate_format fmt
            { primary_type := .AFBC_WIDEBLK, is_multi_plane := false,
              is_tiled := true, is_padded := usage.afbc_padding,
              is_frontbuffer_safe := true, afrc := default } height = true := by
          unfold validate_format
          simp [alloc_type_t.is_afbc, hfa, hid]
          all_goals omega
        unfold mali_gralloc_derive_format_and_size
        rw [hok]
        simp only []
        rw [hval]
        simp
      · intro hn' _
        omega
  | true =>
    cases hw : ext.afbc_wideblk with
    | true =>
      have hne1 : fmt.npln ≠ 1 := fun h1 => hc ⟨h1, hw, hxw⟩
      have hok : get_alloc_type ext fmt usage = .ok
          { primary_type := .AFBC_WIDEBLK,
            is_multi_plane := decide (1 < fmt.npln),
            is_tiled := true, is_padded := usage.afbc_padding,
            is_frontbuffer_safe := true, afrc := default } := by
        unfold get_alloc_type
        simp [hafbc, htl, hdb, hxw, hw, hne1]
      refine ⟨_, hok, rfl, ?_, ?_⟩
      · intro hfa hid _ width height layer_count
        have hval : validate_format fmt
            { primary_type := .AFBC_WIDEBLK,
              is_multi_plane := decide (1 < fmt.npln),
              is_tiled := true, is_padded := usage.afbc_padding,
              is_frontbuffer_safe := true, afrc := default } height = true := by
          unfold validate_format
          simp [alloc_type_t.is_afbc, hfa, hid]
          all_goals omega
        unfold mali_gralloc_derive_format_and_size
        rw [hok]
        simp only []
        rw [hval]
        simp
      · intro _ hxf
        exact Bool.noConfusion hxf
    | false =>
      have hok : get_alloc_type ext fmt usage = .ok
          { primary_type := .AFBC_EXTRAWIDEBLK,
            is_multi_plane := decide (1 < fmt.npln),
            is_tiled := true, is_padded := usage.afbc_padding,
            is_frontbuffer_safe := true, afrc := default } := by
        unfold get_alloc_type
        simp [hafbc, htl, hdb, hxw, hw]
      refine ⟨_, hok, rfl, ?_, ?_⟩
      · intro hfa hid _ width height layer_count
        have hval : validate_format fmt
            { primary_type := .AFBC_EXTRAWIDEBLK,
              is_multi_plane := decide (1 < fmt.npln),
              is_tiled := true, is_padded := usage.afbc_padding,
              is_frontbuffer_safe := true, afrc := default } height = true := by
          unfold validate_format
          simp [alloc_type_t.is_afbc, hfa, hid]
          all_goals omega
        unfold mali_gralloc_derive_format_and_size
        rw [hok]
        simp only []
        rw [hval]
        simp
      · intro _ hxf
        exact Bool.noConfusion hxf

/-- Witness for the amended C10 at a concrete input: wide + tiled +
double-body on the single-plane RGBA-like format succeeds with the
front-buffer-safe flag set, and (the format being AFBC-capable,
non-BLOB and single-plane) the derivation produces a layout. -/
theorem get_alloc_type_frontbuffer_wide_ok_witness :
    ext_afbc_wide_tiled_db.afbc = true ∧
    ext_afbc_wide_tiled_db.afbc_tiled_headers = true ∧
    ext_afbc_wide_tiled_db.afbc_double_body = true ∧
    ext_afbc_wide_tiled_db.afbc_wideblk = true ∧
    ¬(fmt_rgba32.npln = 1 ∧ ext_afbc_wide_tiled_db.afbc_wideblk = true ∧
      ext_afbc_wide_tiled_db.afbc_extrawideblk = true) ∧
    ∃ t, get_alloc_type ext_afbc_wide_tiled_db fmt_rgba32 usage_none =
        .ok t ∧ t.is_frontbuffer_safe = true ∧
      (fmt_rgba32.afbc = true →
        fmt_rgba32.id ≠ MALI_GRALLOC_FORMAT_INTERNAL_BLOB →
        (fmt_rgba32.npln = 1 ∨
          ext_afbc_wide_tiled_db.afbc_extrawideblk = true) →
        ∀ width height layer_count,
          mali_gralloc_derive_format_and_size ext_afbc_wide_tiled_db
            fmt_rgba32 usage_none width height layer_count ≠ none) ∧
      (1 < fmt_rgba32.npln →
        ext_afbc_wide_tiled_db.afbc_extrawideblk = false →
        ∀ width height layer_count,
          mali_gralloc_derive_format_and_size ext_afbc_wide_tiled_db
            fmt_rgba32 usage_none width height layer_count = none) :=
  ⟨by decide, by decide, by decide, by decide, by decide,
   get_alloc_type_frontbuffer_wide_ok ext_afbc_wide_tiled_db fmt_rgba32
     usage_none (by decide) (by decide) (by decide) (.inl (by decide))
     (by decide)⟩

/-- Every 2-bit field value is one of the four enumerated values. -/
theorem fin4_cases : ∀ v : Fin 4, v = 0 ∨ v = 1 ∨ v = 2 ∨ v = 3 := by decide

/-- C5: for every fixed-rate-compressed request, a plane-group 2-bit
coding-unit field whose decoded byte size is outside 16/24/32 makes
`get_alloc_type` fail with the invalid-coding-unit-size error (either
plane group), the valid sizes 16, 24 and 32 map to plane alignments of
1024, 512 and 2048 bytes, and a successful selection stores exactly
those alignments for the decoded coding-unit sizes. -/
theorem get_alloc_type_afrc_coding_unit (ext : FormatExt) (fmt : format_info_t)
    (usage : Usage) (hafrc : ext.afrc = true) (hnafbc : ext.afbc = false) :
    (¬(afrc_cu_bytes_unwrap ext.afrc_rgba_cu_field = 16 ∨
       afrc_cu_bytes_unwrap ext.afrc_rgba_cu_field = 24 ∨
       afrc_cu_bytes_unwrap ext.afrc_rgba_cu_field = 32) →
      get_alloc_type ext fmt usage = .error .invalidCodingUnitSize) ∧
    (¬(afrc_cu_bytes_unwrap ext.afrc_chroma_cu_field = 16 ∨
       afrc_cu_bytes_unwrap ext.afrc_chroma_cu_field = 24 ∨
       afrc_cu_bytes_unwrap ext.afrc_chroma_cu_field = 32) →
      get_alloc_type ext fmt usage = .error .invalidCodingUnitSize) ∧
    afrc_plane_alignment_requirement 16 = 1024 ∧
    afrc_plane_alignment_requirement 24 = 512 ∧
    afrc_plane_alignment_requirement 32 = 2048 ∧
    (∀ t, get_alloc_type ext fmt usage = .ok t →
      t.afrc.rgba_luma_coding_unit_bytes = afrc_cu_bytes_unwrap ext.afrc_rgba_cu_field ∧
      t.afrc.chroma_coding_unit_bytes = afrc_cu_bytes_unwrap ext.afrc_chroma_cu_field ∧
      t.afrc.rgba_luma_plane_alignment =
        afrc_plane_alignment_requirement t.afrc.rgba_luma_coding_unit_bytes ∧
      t.afrc.chroma_plane_alignment =
        afrc_plane_alignment_requirement t.afrc.chroma_coding_unit_bytes) := by
  refine ⟨?_, ?_, rfl, rfl, rfl, ?_⟩
  · intro hbad
    rcases fin4_cases ext.afrc_rgba_cu_field with h | h | h | h
    · exact absurd (Or.inl (by rw [h]; rfl)) hbad
    · exact absurd (Or.inr (Or.inl (by rw [h]; rfl))) hbad
    · exact absurd (Or.inr (Or.inr (by rw [h]; rfl))) hbad
    · have hz : afrc_plane_alignment_requirement
          (afrc_cu_bytes_unwrap ext.afrc_rgba_cu_field) = 0 := by rw [h]; rfl
      unfold get_alloc_type
      simp [hnafbc, hafrc, hz]
  · intro hbad
    rcases fin4_cases ext.afrc_chroma_cu_field with h | h | h | h
    · exact absurd (Or.inl (by rw [h]; rfl)) hbad
    · exact absurd (Or.inr (Or.inl (by rw [h]; rfl))) hbad
    · exact absurd (Or.inr (Or.inr (by rw [h]; rfl))) hbad
    · have hz : afrc_plane_alignment_requirement
          (afrc_cu_bytes_unwrap ext.afrc_chroma_cu_field) = 0 := by rw [h]; rfl
      unfold get_alloc_type
      simp [hnafbc, hafrc, hz]
  · intro t ht
    unfold get_alloc_type at ht
    simp [hnafbc, hafrc] at ht
    split at ht
    · cases ht
    · split at ht
      · cases ht
      · split at ht
        · cases ht
        · rename_i heq
          injection ht with h'
          subst h'
          exact ⟨rfl, rfl, rfl, rfl⟩

/-- A successful AFRC clump loop records, for every processed plane
index, exactly the clump `afrc_clump` chooses from its component
count. -/
theorem afrc_clumps_ok_elem (ptw pth : Nat) (ncmp : List Nat) :
    ∀ ps cs, afrc_clumps ptw pth ncmp ps = .ok cs →
      ∀ i, i < ps.length →
        afrc_clump ptw pth (ncmp.getD (ps.getD i 0) 0) = .ok (cs.getD i (0, 0)) := by
  intro ps
  induction ps with
  | nil => intro cs h i hi; simp at hi
  | cons p ps ih =>
    intro cs h i hi
    unfold afrc_clumps at h
    cases hc : afrc_clump ptw pth (ncmp.getD p 0) with
    | error e => rw [hc] at h; cases h
    | ok c =>
      rw [hc] at h
      cases hrest : afrc_clumps ptw pth ncmp ps with
      | error e => rw [hrest] at h; cases h
      | ok cs' =>
        rw [hrest] at h
        injection h with h'
        subst h'
        cases i with
        | zero => simpa using hc
        | succ j =>
          have hj := ih cs' hrest j (by simpa using hi)
          simpa using hj

/-- If `afrc_clump` rejects some processed plane, the whole clump loop
fails. -/
theorem afrc_clumps_mem_fail (ptw pth : Nat) (ncmp : List Nat) :
    ∀ ps p e0, p ∈ ps →
      afrc_clump ptw pth (ncmp.getD p 0) = .error e0 →
      ∃ e, afrc_clumps ptw pth ncmp ps = .error e := by
  intro ps
  induction ps with
  | nil => intro p e0 h; simp at h
  | cons q ps ih =>
    intro p e0 hmem hfail
    cases hq : afrc_clump ptw pth (ncmp.getD q 0) with
    | error e => exact ⟨e, by unfold afrc_clumps; rw [hq]⟩
    | ok c =>
      rcases List.mem_cons.mp hmem with rfl | hmem'
      · rw [hq] at hfail; cases hfail
      · obtain ⟨e, he⟩ := ih p e0 hmem' hfail
        exact ⟨e, by unfold afrc_clumps; rw [hq, he]⟩

/-- Reading `List.range n` below its length gives the index itself. -/
theorem range_getD (n i : Nat) (h : i < n) : (List.range n).getD i 0 = i := by
  rw [List.getD_eq_getElem?_getD, List.getElem?_range h]
  rfl

/-- C6: for every fixed-rate-compressed request that succeeds, the
paging tile is 8x8 when the rotated-layout bit is set and 16x4
otherwise, each plane's clump is the paging-tile size for 1 component,
8x4 for 2 components and 4x4 for 3 or 4 components, and any other
component count on some plane makes selection fail. -/
theorem get_alloc_type_afrc_geometry (ext : FormatExt) (fmt : format_info_t)
    (usage : Usage) (hafrc : ext.afrc = true) (hnafbc : ext.afbc = false) :
    (∀ t, get_alloc_type ext fmt usage = .ok t →
      t.afrc.paging_tile_width = (if ext.afrc_rot_layout = true then 8 else 16) ∧
      t.afrc.paging_tile_height = (if ext.afrc_rot_layout = true then 8 else 4) ∧
      ∀ plane, plane < fmt.npln →
        (fmt.ncmp.getD plane 0 = 1 →
          t.afrc.clumps.getD plane (0, 0) =
            (t.afrc.paging_tile_width, t.afrc.paging_tile_height)) ∧
        (fmt.ncmp.getD plane 0 = 2 → t.afrc.clumps.getD plane (0, 0) = (8, 4)) ∧
        ((fmt.ncmp.getD plane 0 = 3 ∨ fmt.ncmp.getD plane 0 = 4) →
          t.afrc.clumps.getD plane (0, 0) = (4, 4))) ∧
    ((∃ plane, plane < fmt.npln ∧
        ¬(fmt.ncmp.getD plane 0 = 1 ∨ fmt.ncmp.getD plane 0 = 2 ∨
          fmt.ncmp.getD plane 0 = 3 ∨ fmt.ncmp.getD plane 0 = 4)) →
      ∃ e, get_alloc_type ext fmt usage = .error e) := by
  constructor
  · intro t ht
    unfold get_alloc_type at ht
    simp [hnafbc, hafrc] at ht
    split at ht
    · cases ht
    · split at ht
      · cases ht
      · split at ht
        · cases ht
        · rename_i cs heq
          injection ht with h'
          subst h'
          refine ⟨rfl, rfl, ?_⟩
          intro plane hlt
          have hlen : plane < (List.range fmt.npln).length := by
            rw [List.length_range]; exact hlt
          have helem := afrc_clumps_ok_elem _ _ fmt.ncmp (List.range fmt.npln)
            cs heq plane hlen
          rw [range_getD _ _ hlt] at helem
          refine ⟨?_, ?_, ?_⟩
          · intro h1
            rw [h1] at helem
            injection helem with h2
            exact h2.symm
          · intro h1
            rw [h1] at helem
            injection helem with h2
            exact h2.symm
          · rintro (h1 | h1) <;> rw [h1] at helem <;>
              injection helem with h2 <;> exact h2.symm
  · rintro ⟨plane, hlt, hbad⟩
    have hclump : afrc_clump (if ext.afrc_rot_layout = true then 8 else 16)
        (if ext.afrc_rot_layout = true then 8 else 4)
        (fmt.ncmp.getD plane 0) = .error .invalidComponentCount := by
      rcases hv : fmt.ncmp.getD plane 0 with _ | _ | _ | _ | _ | k
      · rfl
      · rw [hv] at hbad; simp at hbad
      · rw [hv] at hbad; simp at hbad
      · rw [hv] at hbad; simp at hbad
      · rw [hv] at hbad; simp at hbad
      · rfl
    obtain ⟨e, he⟩ := afrc_clumps_mem_fail _ _ fmt.ncmp (List.range fmt.npln)
      plane _ (List.mem_range.mpr hlt) hclump
    unfold get_alloc_type
    simp only [hnafbc, hafrc]
    by_cases h1 : afrc_plane_alignment_requirement
        (afrc_cu_bytes_unwrap ext.afrc_rgba_cu_field) = 0
    · exact ⟨.invalidCodingUnitSize, by simp [h1]⟩
    · by_cases h2 : afrc_plane_alignment_requirement
          (afrc_cu_bytes_unwrap ext.afrc_chroma_cu_field) = 0
      · exact ⟨.invalidCodingUnitSize, by simp [h1, h2]⟩
      · exact ⟨e, by simp [h1, h2, he]⟩

/-- Witness for C5 at a concrete input: the reserved coding-unit field
value makes selection of the NV12-like format fail. -/
theorem get_alloc_type_afrc_coding_unit_witness :
    ext_afrc_bad_cu.afrc = true ∧ ext_afrc_bad_cu.afbc = false ∧
    ¬(afrc_cu_bytes_unwrap ext_afrc_bad_cu.afrc_rgba_cu_field = 16 ∨
      afrc_cu_bytes_unwrap ext_afrc_bad_cu.afrc_rgba_cu_field = 24 ∨
      afrc_cu_bytes_unwrap ext_afrc_bad_cu.afrc_rgba_cu_field = 32) ∧
    get_alloc_type ext_afrc_bad_cu fmt_nv12 usage_none =
      .error .invalidCodingUnitSize :=
  ⟨by decide, by decide, by decide,
   (get_alloc_type_afrc_coding_unit ext_afrc_bad_cu fmt_nv12 usage_none
     (by decide) (by decide)).1 (by decide)⟩

/-- Witness for C6 at a concrete input: the rotated-layout request on the
NV12-like format gets 8x8 paging tiles, and its two-component chroma
plane gets an 8x4 clump. -/
theorem get_alloc_type_afrc_geometry_witness :
    t_afrc_rot.afrc.paging_tile_width = 8 ∧
    t_afrc_rot.afrc.paging_tile_height = 8 ∧
    t_afrc_rot.afrc.clumps.getD 1 (0, 0) = (8, 4) := by
  have h := (get_alloc_type_afrc_geometry ext_afrc_rot fmt_nv12 usage_none
    (by decide) (by decide)).1 t_afrc_rot (by decide)
  refine ⟨by rw [h.1]; decide, by rw [h.2.1]; decide,
    (h.2.2 1 (by decide)).2.1 (by decide)⟩

/-- C8: the wire format code is a direct lookup from the internal format
id: an id absent from the table yields the invalid code; for the RGB565
format the returned code depends on whether block-compression is active
(BGR565 under block-compression, RGB565 otherwise, and the two codes
differ); for every other id the returned code is independent of the
encoding bits. -/
theorem drm_fourcc_from_handle_spec (hnd : HandleFmt) :
    (table.lookup hnd.internal_format = none →
      drm_fourcc_from_handle hnd = DRM_FORMAT_INVALID) ∧
    (hnd.internal_format = MALI_GRALLOC_FORMAT_INTERNAL_RGB_565 →
      drm_fourcc_from_handle hnd =
        (if hnd.ext.afbc = true then DRM_FORMAT_BGR565 else DRM_FORMAT_RGB565)) ∧
    (hnd.internal_format ≠ MALI_GRALLOC_FORMAT_INTERNAL_RGB_565 →
      ∀ e2 : FormatExt,
        drm_fourcc_from_handle { hnd with ext := e2 } = drm_fourcc_from_handle hnd) ∧
    DRM_FORMAT_BGR565 ≠ DRM_FORMAT_RGB565 := by
  refine ⟨?_, ?_, ?_, by decide⟩
  · intro h
    unfold drm_fourcc_from_handle
    rw [h]
  · intro h
    unfold drm_fourcc_from_handle
    have hl : table.lookup hnd.internal_format =
        some { fourcc := DRM_FORMAT_RGB565, colormodel := .rgb } := by
      rw [h]; decide
    simp only [hl]
    unfold is_format_afbc
    by_cases ha : hnd.ext.afbc = true
    · rw [if_pos ⟨ha, h⟩, if_pos ha]
    · rw [if_neg (fun hc => ha hc.1), if_neg ha]
  · intro h e2
    have hint : ({ hnd with ext := e2 } : HandleFmt).internal_format =
        hnd.internal_format := rfl
    unfold drm_fourcc_from_handle
    unfold is_format_afbc
    cases hl : table.lookup hnd.internal_format with
    | none => simp only [hint, hl]
    | some entry =>
      simp only [hint, hl]
      rw [if_neg (fun hc => h hc.2), if_neg (fun hc => h hc.2)]

/-- C7: when more than one layer is requested,
`mali_gralloc_derive_format_and_size` returns the single-layer size of
`calc_allocation_size` first aligned to 4096 bytes (block-compressed
with tiled headers) or 128 bytes (block-compressed without tiled
headers) or left unaligned (any other encoding), then multiplied by the
layer count; a single layer returns the single-layer size unchanged. -/
theorem derive_layer_count_scaling (ext : FormatExt) (f : format_info_t)
    (usage : Usage) (w h n : Nat) (out : BufferLayout) (t : alloc_type_t)
    (ht : get_alloc_type ext f usage = .ok t)
    (hs : mali_gralloc_derive_format_and_size ext f usage w h n = some out) :
    (1 < n → out.size =
      (if ext.afbc = true then
         if ext.afbc_tiled_headers = true then
           GRALLOC_ALIGN (calc_allocation_size w h t f usage.cpu usage.hw).size 4096
         else GRALLOC_ALIGN (calc_allocation_size w h t f usage.cpu usage.hw).size 128
       else (calc_allocation_size w h t f usage.cpu usage.hw).size) * n) ∧
    (n = 1 → out.size = (calc_allocation_size w h t f usage.cpu usage.hw).size) := by
  unfold mali_gralloc_derive_format_and_size at hs
  rw [ht] at hs
  simp only [] at hs
  split at hs
  · injection hs with h'
    subst h'
    constructor
    · intro hn
      simp only [is_format_afbc]
      rw [if_pos hn]
    · intro hn
      subst hn
      simp
  · cases hs

/-- Witness for C8 at a concrete input: RGB565 with block-compression
active maps to the alternative BGR565 code. -/
theorem drm_fourcc_from_handle_spec_witness :
    drm_fourcc_from_handle
      { internal_format := MALI_GRALLOC_FORMAT_INTERNAL_RGB_565,
        ext := ext_afbc } = DRM_FORMAT_BGR565 := by
  have h := (drm_fourcc_from_handle_spec
    { internal_format := MALI_GRALLOC_FORMAT_INTERNAL_RGB_565,
      ext := ext_afbc }).2.1 rfl
  rw [h]
  decide

/-- Witness for C7 at a concrete input: three layers of the uncompressed
NV12-like 16x16 buffer give three times the (non-block-compressed, hence
unaligned) single-layer size. -/
theorem derive_layer_count_scaling_witness :
    (1 < 3 →
      ((mali_gralloc_derive_format_and_size ext_none fmt_nv12 usage_none
          16 16 3).getD { pixel_stride := 0, size := 0, planes := [] }).size =
        (if ext_none.afbc = true then
           if ext_none.afbc_tiled_headers = true then
             GRALLOC_ALIGN (calc_allocation_size 16 16 t_uncmp_mp fmt_nv12
               usage_none.cpu usage_none.hw).size 4096
           else
             GRALLOC_ALIGN (calc_allocation_size 16 16 t_uncmp_mp fmt_nv12
               usage_none.cpu usage_none.hw).size 128
         else (calc_allocation_size 16 16 t_uncmp_mp fmt_nv12
           usage_none.cpu usage_none.hw).size) * 3) ∧
    (3 = 1 →
      ((mali_gralloc_derive_format_and_size ext_none fmt_nv12 usage_none
          16 16 3).getD { pixel_stride := 0, size := 0, planes := [] }).size =
        (calc_allocation_size 16 16 t_uncmp_mp fmt_nv12
          usage_none.cpu usage_none.hw).size) :=
  derive_layer_count_scaling ext_none fmt_nv12 usage_none 16 16 3
    ((mali_gralloc_derive_format_and_size ext_none fmt_nv12 usage_none
      16 16 3).getD { pixel_stride := 0, size := 0, planes := [] })
    t_uncmp_mp (by decide) (by decide)

/-- A plane's offset is 0 for plane 0 and the (AFRC-aligned) running
total for every later plane. -/
theorem calc_plane_offset (width height : Nat) (t : alloc_type_t)
    (f : format_info_t) (cpu hw : Bool) (plane : Nat)
    (p0 : Option plane_info_t) (size : Nat) :
    (calc_plane width height t f cpu hw plane p0 size).1.info.offset =
      if plane = 0 then 0 else plane_size_base t plane size := rfl

/-- The running total after a plane is its pre-plane base plus the
plane's body+header contribution. -/
theorem calc_plane_snd (width height : Nat) (t : alloc_type_t)
    (f : format_info_t) (cpu hw : Bool) (plane : Nat)
    (p0 : Option plane_info_t) (size : Nat) :
    (calc_plane width height t f cpu hw plane p0 size).2 =
      plane_size_base t plane size +
      plane_contribution (calc_plane width height t f cpu hw plane p0 size).1 := by
  unfold calc_plane plane_contribution
  exact Nat.add_assoc _ _ _

/-- The pre-plane base never decreases the running total. -/
theorem plane_size_base_le (t : alloc_type_t) (plane size : Nat) :
    size ≤ plane_size_base t plane size := by
  unfold plane_size_base
  split
  · exact le_GRALLOC_ALIGN _ _
  · exact Nat.le_refl _

/-- The pre-plane base of a zero running total is zero. -/
theorem plane_size_base_zero (t : alloc_type_t) (plane : Nat) :
    plane_size_base t plane 0 = 0 := by
  unfold plane_size_base
  split
  · exact GRALLOC_ALIGN_zero_left _
  · rfl

/-- The plane-loop tail on no planes returns the size unchanged. -/
theorem calc_planes_nil (width height : Nat) (t : alloc_type_t)
    (f : format_info_t) (cpu hw : Bool) (p0 : plane_info_t) (s : Nat) :
    calc_planes width height t f cpu hw p0 [] s = ([], s) := rfl

/-- One unfolding of the plane-loop tail. -/
theorem calc_planes_cons (width height : Nat) (t : alloc_type_t)
    (f : format_info_t) (cpu hw : Bool) (p0 : plane_info_t) (p : Nat)
    (ps : List Nat) (s : Nat) :
    calc_planes width height t f cpu hw p0 (p :: ps) s =
      ((calc_plane width height t f cpu hw p (some p0) s).1 ::
        (calc_planes width height t f cpu hw p0 ps
          (calc_plane width height t f cpu hw p (some p0) s).2).1,
       (calc_planes width height t f cpu hw p0 ps
          (calc_plane width height t f cpu hw p (some p0) s).2).2) := rfl

/-- A plane never decreases the running total. -/
theorem calc_plane_snd_le (width height : Nat) (t : alloc_type_t)
    (f : format_info_t) (cpu hw : Bool) (plane : Nat)
    (p0 : Option plane_info_t) (size : Nat) :
    size ≤ (calc_plane width height t f cpu hw plane p0 size).2 := by
  rw [calc_plane_snd]
  have := plane_size_base_le t plane size
  omega

/-- The plane-loop tail never decreases the running total. -/
theorem calc_planes_le (width height : Nat) (t : alloc_type_t)
    (f : format_info_t) (cpu hw : Bool) (p0 : plane_info_t) :
    ∀ (ps : List Nat) (s : Nat),
      s ≤ (calc_planes width height t f cpu hw p0 ps s).2 := by
  intro ps
  induction ps with
  | nil => intro s; rw [calc_planes_nil]
  | cons p ps ih =>
    intro s
    rw [calc_planes_cons]
    exact Nat.le_trans (calc_plane_snd_le width height t f cpu hw p (some p0) s)
      (ih _)

/-- Every plane the loop tail produces has its offset at or after the
starting total, and its body+header range ends at or before the final
total. -/
theorem calc_planes_mem (width height : Nat) (t : alloc_type_t)
    (f : format_info_t) (cpu hw : Bool) (p0 : plane_info_t) :
    ∀ (ps : List Nat), (∀ p ∈ ps, p ≠ 0) →
      ∀ (s : Nat) (pc : PlaneCalc),
        pc ∈ (calc_planes width height t f cpu hw p0 ps s).1 →
        s ≤ pc.info.offset ∧
        pc.info.offset + plane_contribution pc ≤
          (calc_planes width height t f cpu hw p0 ps s).2 := by
  intro ps
  induction ps with
  | nil => intro hps s pc h; rw [calc_planes_nil] at h; simp at h
  | cons p ps ih =>
    intro hps s pc h
    rw [calc_planes_cons] at h ⊢
    have hp0 : p ≠ 0 := hps p (List.mem_cons_self p ps)
    rcases List.mem_cons.mp h with rfl | hmem
    · constructor
      · rw [calc_plane_offset, if_neg hp0]
        exact plane_size_base_le t p s
      · have he : (calc_plane width height t f cpu hw p (some p0) s).1.info.offset +
            plane_contribution (calc_plane width height t f cpu hw p (some p0) s).1 =
            (calc_plane width height t f cpu hw p (some p0) s).2 := by
          rw [calc_plane_snd, calc_plane_offset, if_neg hp0]
        rw [he]
        exact calc_planes_le width height t f cpu hw p0 ps _
    · have hrest := ih (fun q hq => hps q (List.mem_cons_of_mem p hq)) _ pc hmem
      refine ⟨Nat.le_trans (calc_plane_snd_le width height t f cpu hw p (some p0) s)
        hrest.1, hrest.2⟩

/-- Planes produced by the loop tail have pairwise ordered, disjoint
body+header ranges. -/
theorem calc_planes_pairwise (width height : Nat) (t : alloc_type_t)
    (f : format_info_t) (cpu hw : Bool) (p0 : plane_info_t) :
    ∀ (ps : List Nat), (∀ p ∈ ps, p ≠ 0) →
      ∀ (s : Nat),
        ((calc_planes width height t f cpu hw p0 ps s).1).Pairwise
          (fun a b => a.info.offset + plane_contribution a ≤ b.info.offset) := by
  intro ps
  induction ps with
  | nil => intro hps s; rw [calc_planes_nil]; exact List.Pairwise.nil
  | cons p ps ih =>
    intro hps s
    rw [calc_planes_cons]
    have hp0 : p ≠ 0 := hps p (List.mem_cons_self p ps)
    have htail : ∀ q ∈ ps, q ≠ 0 := fun q hq => hps q (List.mem_cons_of_mem p hq)
    refine List.Pairwise.cons ?_ (ih htail _)
    intro b hb
    have he : (calc_plane width height t f cpu hw p (some p0) s).1.info.offset +
        plane_contribution (calc_plane width height t f cpu hw p (some p0) s).1 =
        (calc_plane width height t f cpu hw p (some p0) s).2 := by
      rw [calc_plane_snd, calc_plane_offset, if_neg hp0]
    rw [he]
    exact (calc_planes_mem width height t f cpu hw p0 ps htail _ b hb).1

/-- The loop tail adds at least the sum of the produced contributions to
the running total. -/
theorem calc_planes_sum (width height : Nat) (t : alloc_type_t)
    (f : format_info_t) (cpu hw : Bool) (p0 : plane_info_t) :
    ∀ (ps : List Nat) (s : Nat),
      s + (((calc_planes width height t f cpu hw p0 ps s).1).map
            plane_contribution).sum ≤
        (calc_planes width height t f cpu hw p0 ps s).2 := by
  intro ps
  induction ps with
  | nil => intro s; rw [calc_planes_nil]; simp
  | cons p ps ih =>
    intro s
    rw [calc_planes_cons]
    simp only [List.map_cons, List.sum_cons]
    have h1 : s + plane_contribution (calc_plane width height t f cpu hw p
        (some p0) s).1 ≤ (calc_plane width height t f cpu hw p (some p0) s).2 := by
      rw [calc_plane_snd]
      have := plane_size_base_le t p s
      omega
    have h2 := ih ((calc_plane width height t f cpu hw p (some p0) s).2)
    omega

/-- Members of a range starting at 1 are non-zero. -/
theorem mem_range'_one_ne_zero :
    ∀ (n p : Nat), p ∈ List.range' 1 n → p ≠ 0 := by
  intro n p h
  have := List.mem_range'_1.mp h
  omega

/-- C1 (amended): for every computed layout with at least one plane,
plane 0's offset is 0; the body+header range of each plane ends at or
before every later plane's offset (so distinct planes' ranges are
pairwise disjoint); offsets are strictly increasing provided every
plane's body+header contribution is positive; and the total size is at
least the sum of all plane body sizes. -/
theorem calc_allocation_size_invariants (width height : Nat) (t : alloc_type_t)
    (f : format_info_t) (cpu hw : Bool) (hn : 0 < f.npln) :
    ((calc_allocation_size width height t f cpu hw).planes.map
        (fun pc => pc.info.offset)).head? = some 0 ∧
    ((calc_allocation_size width height t f cpu hw).planes).Pairwise
      (fun a b => a.info.offset + plane_contribution a ≤ b.info.offset) ∧
    ((∀ pc ∈ (calc_allocation_size width height t f cpu hw).planes,
        0 < plane_contribution pc) →
      ((calc_allocation_size width height t f cpu hw).planes).Pairwise
        (fun a b => a.info.offset < b.info.offset)) ∧
    (((calc_allocation_size width height t f cpu hw).planes).map
        (fun pc => pc.body_size)).sum ≤
      (calc_allocation_size width height t f cpu hw).size := by
  have hne : f.npln ≠ 0 := Nat.pos_iff_ne_zero.mp hn
  unfold calc_allocation_size
  rw [if_neg hne]
  simp only []
  have hzero : (calc_plane width height t f cpu hw 0 none 0).1.info.offset = 0 := by
    rw [calc_plane_offset, if_pos rfl]
  have hc0 : (calc_plane width height t f cpu hw 0 none 0).2 =
      plane_contribution (calc_plane width height t f cpu hw 0 none 0).1 := by
    rw [calc_plane_snd, plane_size_base_zero, Nat.zero_add]
  have hne0 : ∀ p ∈ List.range' 1 (f.npln - 1), p ≠ 0 :=
    mem_range'_one_ne_zero (f.npln - 1)
  have hpair : ((calc_plane width height t f cpu hw 0 none 0).1 ::
      (calc_planes width height t f cpu hw
        (calc_plane width height t f cpu hw 0 none 0).1.info
        (List.range' 1 (f.npln - 1))
        (calc_plane width height t f cpu hw 0 none 0).2).1).Pairwise
      (fun a b => a.info.offset + plane_contribution a ≤ b.info.offset) := by
    refine List.Pairwise.cons ?_ ?_
    · intro b hb
      rw [hzero, Nat.zero_add]
      calc plane_contribution (calc_plane width height t f cpu hw 0 none 0).1 =
            (calc_plane width height t f cpu hw 0 none 0).2 := hc0.symm
        _ ≤ b.info.offset :=
            (calc_planes_mem width height t f cpu hw _ _ hne0 _ b hb).1
    · exact calc_planes_pairwise width height t f cpu hw _ _ hne0 _
  refine ⟨?_, hpair, ?_, ?_⟩
  · simp [hzero]
  · intro hpos
    refine List.Pairwise.imp_of_mem ?_ hpair
    intro a b ha hb hab
    have := hpos a ha
    omega
  · have hsum := calc_planes_sum width height t f cpu hw
      (calc_plane width height t f cpu hw 0 none 0).1.info
      (List.range' 1 (f.npln - 1))
      ((calc_plane width height t f cpu hw 0 none 0).2)
    have hbody : ∀ pc ∈ ((calc_plane width height t f cpu hw 0 none 0).1 ::
        (calc_planes width height t f cpu hw
          (calc_plane width height t f cpu hw 0 none 0).1.info
          (List.range' 1 (f.npln - 1))
          (calc_plane width height t f cpu hw 0 none 0).2).1),
        pc.body_size ≤ plane_contribution pc := by
      intro pc _
      unfold plane_contribution
      omega
    calc (((calc_plane width height t f cpu hw 0 none 0).1 ::
          (calc_planes width height t f cpu hw
            (calc_plane width height t f cpu hw 0 none 0).1.info
            (List.range' 1 (f.npln - 1))
            (calc_plane width height t f cpu hw 0 none 0).2).1).map
          (fun pc => pc.body_size)).sum ≤
        (((calc_plane width height t f cpu hw 0 none 0).1 ::
          (calc_planes width height t f cpu hw
            (calc_plane width height t f cpu hw 0 none 0).1.info
            (List.range' 1 (f.npln - 1))
            (calc_plane width height t f cpu hw 0 none 0).2).1).map
          plane_contribution).sum := List.sum_le_sum hbody
      _ ≤ _ := by
        simp only [List.map_cons, List.sum_cons]
        rw [← hc0]
        exact hsum

/-- The three-way maximum collapses to its middle argument when that
dominates. -/
theorem max3_eq_middle (b tile : Nat) (h1 : 1 ≤ b) (ht : tile ≤ b) :
    max3 1 b tile = b := by
  unfold max3
  rw [Nat.max_eq_right h1, Nat.max_eq_left ht]

/-- Divisibility of the final dimension alignment, when the declared
tile size does not exceed the encoding alignment. -/
theorem dvd_align_max3 (d b tile v : Nat) (hd : d ∣ b) (h1 : 1 ≤ b)
    (ht : tile ≤ b) : d ∣ GRALLOC_ALIGN v (max3 1 b tile) := by
  rw [max3_eq_middle b tile h1 ht]
  exact dvd_GRALLOC_ALIGN v hd (by omega)

/-- A block-compressed allocation type has one of the three superblock
geometries. -/
theorem get_afbc_sb_size_cases (t : alloc_type_t) (plane : Nat)
    (h : t.is_afbc = true) :
    get_afbc_sb_size t plane = { width := 16, height := 16 } ∨
    get_afbc_sb_size t plane = { width := 32, height := 8 } ∨
    get_afbc_sb_size t plane = { width := 64, height := 4 } := by
  unfold alloc_type_t.is_afbc at h
  unfold get_afbc_sb_size get_afbc_sb_size_base
  split
  · right; right; rfl
  · cases hpt : t.primary_type with
    | AFBC => left; rfl
    | AFBC_WIDEBLK => right; left; rfl
    | AFBC_EXTRAWIDEBLK => right; right; rfl
    | UNCOMPRESSED => rw [hpt] at h; simp at h
    | AFRC => rw [hpt] at h; simp at h
    | BLOCK_LINEAR => rw [hpt] at h; simp at h

/-- The AFBC tile width is the superblock width or its 4- or 8-fold
(tiled headers). -/
theorem afbc_tile_width_cases (f : format_info_t) (t : alloc_type_t)
    (plane : Nat) :
    afbc_tile_width f t plane = (get_afbc_sb_size t plane).width ∨
    afbc_tile_width f t plane = 4 * (get_afbc_sb_size t plane).width ∨
    afbc_tile_width f t plane = 8 * (get_afbc_sb_size t plane).width := by
  unfold afbc_tile_width
  split
  · split
    · right; left; rfl
    · right; right; rfl
  · left; rfl

/-- The AFBC tile height is the superblock height or its 4- or 8-fold
(tiled headers). -/
theorem afbc_tile_height_cases (f : format_info_t) (t : alloc_type_t)
    (plane : Nat) :
    afbc_tile_height f t plane = (get_afbc_sb_size t plane).height ∨
    afbc_tile_height f t plane = 4 * (get_afbc_sb_size t plane).height ∨
    afbc_tile_height f t plane = 8 * (get_afbc_sb_size t plane).height := by
  unfold afbc_tile_height
  split
  · split
    · right; left; rfl
    · right; right; rfl
  · left; rfl

/-- Without tiled headers the AFBC tile height is the superblock
height. -/
theorem afbc_tile_height_untiled (f : format_info_t) (t : alloc_type_t)
    (plane : Nat) (h : t.is_tiled = false) :
    afbc_tile_height f t plane = (get_afbc_sb_size t plane).height := by
  unfold afbc_tile_height
  rw [h]
  rfl

/-- C2 (amended): for every block-compressed plane computed without CPU
usage, and whose format tile size does not exceed the superblock-derived
alignment, the allocation width is a multiple of the plane's superblock
width scaled by the headers-per-tile factor when tiled headers are
active, additionally a multiple of 4 superblocks when padding is
requested on a non-YUV format, and the allocation height is a multiple
of the (scaled) superblock height, with a multiple-of-16 height for
wide-block layouts without tiled headers.  (With CPU usage the width is
aligned to the format's CPU pixel alignment instead; see the
counterexample.) -/
theorem get_pixel_w_h_afbc_alignment (width height : Nat) (f : format_info_t)
    (t : alloc_type_t) (plane : Nat) (hafbc : t.is_afbc = true)
    (htw : f.tile_size ≤ afbc_tile_width f t plane)
    (hth : f.tile_size ≤ afbc_tile_height f t plane) :
    afbc_tile_width f t plane ∣ (get_pixel_w_h width height f t plane false).1 ∧
    afbc_tile_height f t plane ∣ (get_pixel_w_h width height f t plane false).2 ∧
    (t.is_padded = true → f.is_yuv = false →
      4 * (get_afbc_sb_size t plane).width ∣
        (get_pixel_w_h width height f t plane false).1) ∧
    (t.primary_type = .AFBC_WIDEBLK → t.is_tiled = false →
      16 ∣ (get_pixel_w_h width height f t plane false).2) := by
  have hsbcase := get_afbc_sb_size_cases t plane hafbc
  have hw1 : 1 ≤ (get_afbc_sb_size t plane).width := by
    rcases hsbcase with h | h | h <;> rw [h] <;> decide
  have hh1 : 1 ≤ (get_afbc_sb_size t plane).height := by
    rcases hsbcase with h | h | h <;> rw [h] <;> decide
  have hhdvd : (get_afbc_sb_size t plane).height ∣ 16 := by
    rcases hsbcase with h | h | h <;> rw [h] <;> decide
  have hhle : (get_afbc_sb_size t plane).height ≤ 16 := by
    rcases hsbcase with h | h | h <;> rw [h] <;> decide
  have htwc := afbc_tile_width_cases f t plane
  have hthc := afbc_tile_height_cases f t plane
  have htw1 : 1 ≤ afbc_tile_width f t plane := by
    rcases htwc with h | h | h <;> rw [h] <;> omega
  have hth1 : 1 ≤ afbc_tile_height f t plane := by
    rcases hthc with h | h | h <;> rw [h] <;> omega
  have hwdvd : ∀ v : Nat, afbc_tile_width f t plane ∣
      GRALLOC_ALIGN v
        (max3 1
          ((0 ⊔ if t.is_padded = true ∧ f.is_yuv = false then 4 else 0) *
              (get_afbc_sb_size t plane).width ⊔
            afbc_tile_width f t plane)
          f.tile_size) := by
    intro v
    apply dvd_align_max3
    · by_cases hp : t.is_padded = true ∧ f.is_yuv = false
      · rw [if_pos hp]
        rcases htwc with h | h | h <;> rw [h]
        · have hm : (0 ⊔ 4) * (get_afbc_sb_size t plane).width ⊔
              (get_afbc_sb_size t plane).width =
              4 * (get_afbc_sb_size t plane).width := by
            have : (0 ⊔ 4) = 4 := by decide
            rw [this]
            exact Nat.max_eq_left (by omega)
          rw [hm]
          exact Dvd.intro 4 (by ring)
        · have hm : (0 ⊔ 4) * (get_afbc_sb_size t plane).width ⊔
              4 * (get_afbc_sb_size t plane).width =
              4 * (get_afbc_sb_size t plane).width := by
            have : (0 ⊔ 4) = 4 := by decide
            rw [this]
            exact Nat.max_self _
          rw [hm]
        · have hm : (0 ⊔ 4) * (get_afbc_sb_size t plane).width ⊔
              8 * (get_afbc_sb_size t plane).width =
              8 * (get_afbc_sb_size t plane).width := by
            have : (0 ⊔ 4) = 4 := by decide
            rw [this]
            exact Nat.max_eq_right (by omega)
          rw [hm]
      · rw [if_neg hp]
        have hm : (0 ⊔ 0) * (get_afbc_sb_size t plane).width ⊔
            afbc_tile_width f t plane = afbc_tile_width f t plane := by
          have : (0 ⊔ 0) * (get_afbc_sb_size t plane).width = 0 := by
            rw [show (0 ⊔ 0) = 0 from rfl, Nat.zero_mul]
          rw [this]
          exact Nat.zero_max _
        rw [hm]
    · exact Nat.le_trans htw1 (Nat.le_max_right _ _)
    · exact Nat.le_trans htw (Nat.le_max_right _ _)
  have hpdvd : t.is_padded = true → f.is_yuv = false → ∀ v : Nat,
      4 * (get_afbc_sb_size t plane).width ∣
      GRALLOC_ALIGN v
        (max3 1
          ((0 ⊔ if t.is_padded = true ∧ f.is_yuv = false then 4 else 0) *
              (get_afbc_sb_size t plane).width ⊔
            afbc_tile_width f t plane)
          f.tile_size) := by
    intro hp hy v
    apply dvd_align_max3
    · rw [if_pos ⟨hp, hy⟩]
      rcases htwc with h | h | h <;> rw [h]
      · have hm : (0 ⊔ 4) * (get_afbc_sb_size t plane).width ⊔
            (get_afbc_sb_size t plane).width =
            4 * (get_afbc_sb_size t plane).width := by
          rw [show (0 ⊔ 4) = 4 from rfl]
          exact Nat.max_eq_left (by omega)
        rw [hm]
      · have hm : (0 ⊔ 4) * (get_afbc_sb_size t plane).width ⊔
            4 * (get_afbc_sb_size t plane).width =
            4 * (get_afbc_sb_size t plane).width := by
          rw [show (0 ⊔ 4) = 4 from rfl]
          exact Nat.max_self _
        rw [hm]
      · have hm : (0 ⊔ 4) * (get_afbc_sb_size t plane).width ⊔
            8 * (get_afbc_sb_size t plane).width =
            8 * (get_afbc_sb_size t plane).width := by
          rw [show (0 ⊔ 4) = 4 from rfl]
          exact Nat.max_eq_right (by omega)
        rw [hm]
        exact Dvd.intro 2 (by ring)
    · exact Nat.le_trans htw1 (Nat.le_max_right _ _)
    · exact Nat.le_trans htw (Nat.le_max_right _ _)
  unfold get_pixel_w_h
  simp only [hafbc, Bool.false_eq_true, if_false, eq_self_iff_true, if_true]
  refine ⟨hwdvd _, ?_, fun hp hy => hpdvd hp hy _, ?_⟩
  · by_cases hwu : t.primary_type = .AFBC_WIDEBLK ∧ t.is_tiled = false
    · rw [if_pos hwu]
      have hthsb : afbc_tile_height f t plane = (get_afbc_sb_size t plane).height :=
        afbc_tile_height_untiled f t plane hwu.2
      have hm : (1 ⊔ afbc_tile_height f t plane) ⊔ 16 = 16 := by
        rw [Nat.max_eq_right hth1, hthsb]
        exact Nat.max_eq_right hhle
      rw [hm]
      have htile16 : f.tile_size ≤ 16 := by
        have := hth
        rw [hthsb] at this
        omega
      refine dvd_align_max3 _ _ _ _ ?_ (by omega) htile16
      rw [hthsb]
      exact hhdvd
    · rw [if_neg hwu]
      rw [Nat.max_eq_right hth1]
      exact dvd_align_max3 _ _ _ _ dvd_rfl hth1 hth
  · intro hwide huntiled
    have hcond : t.primary_type = .AFBC_WIDEBLK ∧ t.is_tiled = false :=
      ⟨hwide, huntiled⟩
    rw [if_pos hcond]
    have hthsb : afbc_tile_height f t plane = (get_afbc_sb_size t plane).height :=
      afbc_tile_height_untiled f t plane huntiled
    have hm : (1 ⊔ afbc_tile_height f t plane) ⊔ 16 = 16 := by
      rw [Nat.max_eq_right hth1, hthsb]
      exact Nat.max_eq_right hhle
    rw [hm]
    have htile16 : f.tile_size ≤ 16 := by
      have := hth
      rw [hthsb] at this
      omega
    exact dvd_align_max3 _ _ _ _ dvd_rfl (by omega) htile16

/-- C1 counterexample: the claim "plane offsets are strictly increasing
for every successfully computed multi-plane layout" fails as stated: a
1x1 multi-plane block-compressed request with CPU usage passes selection
and validation but computes both plane offsets as 0 (every plane's
superblock count, body and header are zero). -/
theorem calc_allocation_size_offsets_counterexample :
    get_alloc_type ext_afbc_xw_tiled fmt_yuv2p usage_none = .ok t_afbc_xw_mp ∧
    validate_format fmt_yuv2p t_afbc_xw_mp 1 = true ∧
    1 < fmt_yuv2p.npln ∧
    ((calc_allocation_size 1 1 t_afbc_xw_mp fmt_yuv2p true false).planes.map
      (fun pc => pc.info.offset)) = [0, 0] ∧
    ¬ ((calc_allocation_size 1 1 t_afbc_xw_mp fmt_yuv2p true false).planes.Pairwise
      (fun a b => a.info.offset < b.info.offset)) := by
  decide

/-- Witness for the amended C1 at a concrete input: the uncompressed
16x16 NV12-like layout has positive contributions, offsets 0 < 256,
disjoint ranges and total at least the body sum. -/
theorem calc_allocation_size_invariants_witness :
    0 < fmt_nv12.npln ∧
    (((calc_allocation_size 16 16 t_uncmp_mp fmt_nv12 false false).planes.map
        (fun pc => pc.info.offset)).head? = some 0 ∧
     ((calc_allocation_size 16 16 t_uncmp_mp fmt_nv12 false false).planes).Pairwise
       (fun a b => a.info.offset + plane_contribution a ≤ b.info.offset) ∧
     ((∀ pc ∈ (calc_allocation_size 16 16 t_uncmp_mp fmt_nv12 false false).planes,
         0 < plane_contribution pc) →
       ((calc_allocation_size 16 16 t_uncmp_mp fmt_nv12 false false).planes).Pairwise
         (fun a b => a.info.offset < b.info.offset)) ∧
     (((calc_allocation_size 16 16 t_uncmp_mp fmt_nv12 false false).planes).map
        (fun pc => pc.body_size)).sum ≤
       (calc_allocation_size 16 16 t_uncmp_mp fmt_nv12 false false).size) :=
  ⟨by decide,
   calc_allocation_size_invariants 16 16 t_uncmp_mp fmt_nv12 false false
     (by decide)⟩

/-- C2 counterexample: the claim's "irrespective of whether CPU usage is
also requested" fails as stated: with CPU usage the 16x16-superblock
plane keeps width 17 (aligned only to the CPU pixel alignment), not a
multiple of the superblock width, while without CPU usage it becomes 32;
and a declared tile size (17) above the superblock width also defeats
the superblock multiple without any CPU usage. -/
theorem get_pixel_w_h_afbc_alignment_counterexample :
    get_alloc_type ext_afbc fmt_rgba32 usage_none = .ok t_afbc_basic ∧
    get_afbc_sb_size t_afbc_basic 0 = { width := 16, height := 16 } ∧
    (get_pixel_w_h 17 17 fmt_rgba32 t_afbc_basic 0 true).1 = 17 ∧
    ¬ (16 ∣ (get_pixel_w_h 17 17 fmt_rgba32 t_afbc_basic 0 true).1) ∧
    (get_pixel_w_h 17 17 fmt_rgba32 t_afbc_basic 0 false).1 = 32 ∧
    (get_pixel_w_h 1 1 fmt_rgba32_tile17 t_afbc_basic 0 false).1 = 17 ∧
    ¬ (16 ∣ (get_pixel_w_h 1 1 fmt_rgba32_tile17 t_afbc_basic 0 false).1) := by
  decide

/-- Witness for the amended C2 at a concrete input: the basic
block-compressed plane at 17x17 without CPU usage is aligned to
multiples of the 16x16 superblock. -/
theorem get_pixel_w_h_afbc_alignment_witness :
    t_afbc_basic.is_afbc = true ∧
    fmt_rgba32.tile_size ≤ afbc_tile_width fmt_rgba32 t_afbc_basic 0 ∧
    fmt_rgba32.tile_size ≤ afbc_tile_height fmt_rgba32 t_afbc_basic 0 ∧
    (afbc_tile_width fmt_rgba32 t_afbc_basic 0 ∣
       (get_pixel_w_h 17 17 fmt_rgba32 t_afbc_basic 0 false).1 ∧
     afbc_tile_height fmt_rgba32 t_afbc_basic 0 ∣
       (get_pixel_w_h 17 17 fmt_rgba32 t_afbc_basic 0 false).2 ∧
     (t_afbc_basic.is_padded = true → fmt_rgba32.is_yuv = false →
       4 * (get_afbc_sb_size t_afbc_basic 0).width ∣
         (get_pixel_w_h 17 17 fmt_rgba32 t_afbc_basic 0 false).1) ∧
     (t_afbc_basic.primary_type = .AFBC_WIDEBLK → t_afbc_basic.is_tiled = false →
       16 ∣ (get_pixel_w_h 17 17 fmt_rgba32 t_afbc_basic 0 false).2)) :=
  ⟨by decide, by decide, by decide,
   get_pixel_w_h_afbc_alignment 17 17 fmt_rgba32 t_afbc_basic 0
     (by decide) (by decide) (by decide)⟩
